import Mathlib

set_option autoImplicit false

/-!
Verification of the mesh snapping subsystem
(`source/blender/editors/transform/transform_snap_object_mesh.cc`) and the
shader test node (`source/blender/nodes/shader/nodes/test_shader.cc`) of this
repository.

The two C++ files are shallowly embedded below.  Machine floating point
coordinates are modelled by exact rationals; functions that the repository
declares elsewhere (the BVH library, the BLI math library, the GPU material
API and the generic snap callbacks of `transform_snap_object.cc`) are
modelled from the spec and marked as such in their doc comments.
-/

/-- Exact 3d vector (the `float[3]` of the source, modelled over `ℚ`). -/
structure Vec3 where
  x : ℚ
  y : ℚ
  z : ℚ
deriving DecidableEq, Repr

instance : Inhabited Vec3 := ⟨⟨0, 0, 0⟩⟩

/-- Component-wise vector subtraction (`sub_v3_v3v3`). -/
def Vec3.sub (a b : Vec3) : Vec3 := ⟨a.x - b.x, a.y - b.y, a.z - b.z⟩

/-- Vector addition (`add_v3_v3v3`). -/
def Vec3.add (a b : Vec3) : Vec3 := ⟨a.x + b.x, a.y + b.y, a.z + b.z⟩

/-- Scalar multiple. -/
def Vec3.smul (q : ℚ) (a : Vec3) : Vec3 := ⟨q * a.x, q * a.y, q * a.z⟩

/-- Dot product (`dot_v3v3`). -/
def Vec3.dot (a b : Vec3) : ℚ := a.x * b.x + a.y * b.y + a.z * b.z

/-- Cross product (`cross_v3_v3v3`). -/
def Vec3.cross (a b : Vec3) : Vec3 :=
  ⟨a.y * b.z - a.z * b.y, a.z * b.x - a.x * b.z, a.x * b.y - a.y * b.x⟩

/-- `madd_v3_v3v3fl(r, a, b, f)`: `r = a + b * f`. -/
def madd_v3_v3v3fl (a b : Vec3) (f : ℚ) : Vec3 := a.add (Vec3.smul f b)

/-- `cross_tri_v3(n, v1, v2, v3)` of the BLI math library (declared outside
this excerpt): `n = (v1 - v2) x (v2 - v3)`, the (unnormalized) face normal of
the triangle `v1 v2 v3`. -/
def cross_tri_v3 (v1 v2 v3 : Vec3) : Vec3 := (v1.sub v2).cross (v2.sub v3)

/-- Modelled from the spec: `raycast_tri_backface_culling_test(dir, v0, v1,
v2, no)` is declared in `transform_snap_object.hh`, outside this excerpt.  It
computes the triangle normal with `cross_tri_v3` and passes (returns `true`)
exactly when the triangle is front-facing with respect to the ray direction,
i.e. when the normal points against the ray (`dot(no, dir) < 0`); a
back-facing triangle (normal along the ray, `dot(no, dir) >= 0`) fails the
test.  The ray-cast callback in `transform_snap_object_mesh.cc` records a hit
only when this test passes, which is what makes it a back-face culling
test. -/
def raycast_tri_backface_culling_test (dir v0 v1 v2 : Vec3) : Bool :=
  decide ((cross_tri_v3 v0 v1 v2).dot dir < 0)

/-- A triangle is back-facing for a ray direction when its normal does not
point against the ray, i.e. when the culling test fails. -/
def triBackfacing (dir v0 v1 v2 : Vec3) : Bool :=
  decide (0 ≤ (cross_tri_v3 v0 v1 v2).dot dir)

/-- The `eSnapMode` bit flags of `DNA_scene_types.h` (declared outside this
excerpt), modelled as a record of booleans, one per flag used by
`transform_snap_object_mesh.cc`.  Bitwise `&` and `|` become the
component-wise operations below. -/
structure SnapMode where
  toVertex : Bool := false
  toEdge : Bool := false
  toFace : Bool := false
  toEdgeMidpoint : Bool := false
  toEdgePerpendicular : Bool := false
  individualNearest : Bool := false
deriving DecidableEq, Repr

/-- `SCE_SNAP_TO_NONE` (no flag set). -/
def SCE_SNAP_TO_NONE : SnapMode := {}

/-- `SCE_SNAP_TO_VERTEX`. -/
def SCE_SNAP_TO_VERTEX : SnapMode := {toVertex := true}

/-- `SCE_SNAP_TO_EDGE`. -/
def SCE_SNAP_TO_EDGE : SnapMode := {toEdge := true}

/-- `SCE_SNAP_TO_FACE`. -/
def SCE_SNAP_TO_FACE : SnapMode := {toFace := true}

/-- `SCE_SNAP_TO_EDGE_MIDPOINT`. -/
def SCE_SNAP_TO_EDGE_MIDPOINT : SnapMode := {toEdgeMidpoint := true}

/-- `SCE_SNAP_TO_EDGE_PERPENDICULAR`. -/
def SCE_SNAP_TO_EDGE_PERPENDICULAR : SnapMode := {toEdgePerpendicular := true}

/-- `SCE_SNAP_INDIVIDUAL_NEAREST`. -/
def SCE_SNAP_INDIVIDUAL_NEAREST : SnapMode := {individualNearest := true}

/-- Bitwise `&` on `eSnapMode`. -/
def SnapMode.and (a b : SnapMode) : SnapMode :=
  ⟨a.toVertex && b.toVertex, a.toEdge && b.toEdge, a.toFace && b.toFace,
   a.toEdgeMidpoint && b.toEdgeMidpoint,
   a.toEdgePerpendicular && b.toEdgePerpendicular,
   a.individualNearest && b.individualNearest⟩

/-- Bitwise `|` on `eSnapMode`. -/
def SnapMode.or (a b : SnapMode) : SnapMode :=
  ⟨a.toVertex || b.toVertex, a.toEdge || b.toEdge, a.toFace || b.toFace,
   a.toEdgeMidpoint || b.toEdgeMidpoint,
   a.toEdgePerpendicular || b.toEdgePerpendicular,
   a.individualNearest || b.individualNearest⟩

/-- `a & b != 0`: the two flag sets intersect. -/
def SnapMode.hasAny (a b : SnapMode) : Bool :=
  decide (a.and b ≠ SCE_SNAP_TO_NONE)

/-- `a` is a subset of the flags of `b` (`(a & b) == a`). -/
def SnapMode.subsetOf (a b : SnapMode) : Bool :=
  decide (a.and b = a)

/-!  ### Shader test node (`test_shader.cc`)  -/

/-- The socket data types used by `node_declare` in `test_shader.cc`
(`decl::Color`, `decl::Float`, `decl::Vector`, `decl::Shader`). -/
inductive SocketType where
  | color
  | float
  | vector
  | shader
deriving DecidableEq, Repr

/-- The property subtypes used by `test_shader.cc` (`PROP_NONE` default,
`PROP_FACTOR` for the Roughness input). -/
inductive PropSubtype where
  | propNone
  | propFactor
deriving DecidableEq, Repr

/-- Modelled from the spec: one socket declaration produced by the
`NodeDeclarationBuilder` API of the node declaration system (declared outside
this excerpt).  The builder methods below fill in the fields that
`test_shader.cc` uses. -/
structure SocketDecl where
  stype : SocketType
  name : String
  defaultValue : Option (List ℚ) := none
  minValue : Option ℚ := none
  maxValue : Option ℚ := none
  subtypeOf : PropSubtype := PropSubtype.propNone
  hideValue : Bool := false
  isUnavailable : Bool := false
deriving DecidableEq, Repr

/-- `decl::Color(N_(name))`. -/
def declColor (n : String) : SocketDecl := {stype := SocketType.color, name := n}

/-- `decl::Float(N_(name))`. -/
def declFloat (n : String) : SocketDecl := {stype := SocketType.float, name := n}

/-- `decl::Vector(N_(name))`. -/
def declVector (n : String) : SocketDecl := {stype := SocketType.vector, name := n}

/-- `decl::Shader(N_(name))`. -/
def declShader (n : String) : SocketDecl := {stype := SocketType.shader, name := n}

/-- Builder method `.default_value(v)`. -/
def SocketDecl.withDefault (s : SocketDecl) (v : List ℚ) : SocketDecl :=
  {s with defaultValue := some v}

/-- Builder method `.min(v)`. -/
def SocketDecl.withMin (s : SocketDecl) (v : ℚ) : SocketDecl :=
  {s with minValue := some v}

/-- Builder method `.max(v)`. -/
def SocketDecl.withMax (s : SocketDecl) (v : ℚ) : SocketDecl :=
  {s with maxValue := some v}

/-- Builder method `.subtype(st)`. -/
def SocketDecl.withSubtype (s : SocketDecl) (st : PropSubtype) : SocketDecl :=
  {s with subtypeOf := st}

/-- Builder method `.hide_value()`. -/
def SocketDecl.withHideValue (s : SocketDecl) : SocketDecl :=
  {s with hideValue := true}

/-- Builder method `.unavailable()`. -/
def SocketDecl.withUnavailable (s : SocketDecl) : SocketDecl :=
  {s with isUnavailable := true}

/-- Modelled from the spec: the node declaration accumulated by a
`NodeDeclarationBuilder` — the input sockets and output sockets in the order
they were added. -/
structure NodeDeclaration where
  inputs : List SocketDecl := []
  outputs : List SocketDecl := []
deriving DecidableEq, Repr

/-- `b.add_input<...>(...)` appends to the input list. -/
def NodeDeclaration.addInput (b : NodeDeclaration) (s : SocketDecl) : NodeDeclaration :=
  {b with inputs := b.inputs ++ [s]}

/-- `b.add_output<...>(...)` appends to the output list. -/
def NodeDeclaration.addOutput (b : NodeDeclaration) (s : SocketDecl) : NodeDeclaration :=
  {b with outputs := b.outputs ++ [s]}

/-- `node_declare` of `test_shader.cc`: the declaration of the Shader Test
node, built exactly as in the source. -/
def node_declare : NodeDeclaration :=
  (({} : NodeDeclaration).addInput
      ((declColor "Color").withDefault [4/5, 4/5, 4/5, 1])
    |>.addInput ((((declFloat "Roughness").withDefault [0]).withMin 0).withMax 1
      |>.withSubtype PropSubtype.propFactor)
    |>.addInput ((declVector "Normal").withHideValue)
    |>.addInput ((declFloat "Weight").withUnavailable)
    |>.addOutput (declShader "BSDF"))

/-- Modelled from the spec: a GPU node stack slot (`GPUNodeStack`); only its
`link` field is used by `test_shader.cc`.  Links are identified by the
numeric id handed out by the material. -/
structure GPUNodeStack where
  link : Option Nat := none
deriving DecidableEq, Repr

instance : Inhabited GPUNodeStack := ⟨{}⟩

/-- `GPU_MATFLAG_DIFFUSE` (a material flag bit, declared outside this
excerpt). -/
def GPU_MATFLAG_DIFFUSE : Nat := 1

/-- Modelled from the spec: the pieces of `GPUMaterial` state that
`node_shader_gpu_shader_test` touches — the material flags, the log of GPU
functions linked so far, and a counter for fresh link ids. -/
structure GPUMaterial where
  flags : Nat := 0
  linked : List String := []
  nextLinkId : Nat := 0
deriving DecidableEq, Repr

/-- Modelled from the spec: `GPU_link(mat, fname, &out_link)` links the named
GPU function and stores a fresh link in the output slot. -/
def GPU_link (mat : GPUMaterial) (fname : String) : GPUMaterial × Nat :=
  ({mat with linked := mat.linked ++ [fname], nextLinkId := mat.nextLinkId + 1},
   mat.nextLinkId)

/-- Modelled from the spec: `GPU_material_flag_set` ors a flag bit into the
material flags. -/
def GPU_material_flag_set (mat : GPUMaterial) (f : Nat) : GPUMaterial :=
  {mat with flags := mat.flags ||| f}

/-- Modelled from the spec: `GPU_stack_link(mat, node, fname, in, out)` links
the named GPU function against the node's stacks and returns an int status
that the caller passes through; the status is an argument of the model. -/
def GPU_stack_link (mat : GPUMaterial) (fname : String) (status : Int) :
    GPUMaterial × Int :=
  ({mat with linked := mat.linked ++ [fname]}, status)

/-- `node_shader_gpu_shader_test` of `test_shader.cc`, embedded as a state
transformer on the material and the input stacks.  `stackLinkStatus` stands
for the value the external `GPU_stack_link` call returns. -/
def node_shader_gpu_shader_test (stackLinkStatus : Int) (mat : GPUMaterial)
    (ins : List GPUNodeStack) : GPUMaterial × List GPUNodeStack × Int :=
  let step1 :=
    if (ins.getD 2 {}).link = none then
      let r := GPU_link mat "world_normals_get"
      (r.1, ins.set 2 {link := some r.2})
    else (mat, ins)
  let mat1 := GPU_material_flag_set step1.1 GPU_MATFLAG_DIFFUSE
  let r2 := GPU_stack_link mat1 "node_shader_test" stackLinkStatus
  (r2.1, step1.2, r2.2)

/-- Modelled from the spec: the fields of `bNodeType` that
`register_node_type_sh_test` fills in. -/
structure BNodeType where
  typeId : Nat
  uiName : String
  nclass : Nat
  declaration : NodeDeclaration
deriving DecidableEq, Repr

/-- `SH_NODE_SHADER_TEST` (node type id, declared outside this excerpt). -/
def SH_NODE_SHADER_TEST : Nat := 708

/-- `NODE_CLASS_SHADER` (declared outside this excerpt). -/
def NODE_CLASS_SHADER : Nat := 1

/-- Modelled from the spec: the node type registry that `nodeRegisterType`
appends to. -/
structure NodeRegistry where
  types : List BNodeType := []
deriving DecidableEq, Repr

/-- `register_node_type_sh_test` of `test_shader.cc`: builds the static
`bNodeType` (`sh_node_type_base` sets id, name and class; `ntype.declare` is
`node_declare`) and registers it. -/
def register_node_type_sh_test (reg : NodeRegistry) : NodeRegistry :=
  let ntype : BNodeType :=
    {typeId := SH_NODE_SHADER_TEST, uiName := "Shader Test",
     nclass := NODE_CLASS_SHADER, declaration := node_declare}
  {reg with types := reg.types ++ [ntype]}

/-!  ### Mesh snapping (`transform_snap_object_mesh.cc`)  -/

/-- `MLoopTri`: the three corner (loop) indices of one triangle of the
triangulated mesh. -/
structure MLoopTri where
  t0 : Nat
  t1 : Nat
  t2 : Nat
deriving DecidableEq, Repr

instance : Inhabited MLoopTri := ⟨⟨0, 0, 0⟩⟩

/-- `lt->tri[j]`. -/
def MLoopTri.tri (lt : MLoopTri) : Nat → Nat
  | 0 => lt.t0
  | 1 => lt.t1
  | _ => lt.t2

/-- The mesh data that `transform_snap_object_mesh.cc` reads: the element
counts and the arrays returned by `vert_positions()`, `vert_normals()`,
`edges()`, `corner_verts()`, `corner_edges()`, `looptris()` and
`looptri_polys()`.  Array reads are modelled with `List.getD`. -/
structure MeshData where
  totvert : Nat := 0
  totedge : Nat := 0
  totpoly : Nat := 0
  vert_positions : List Vec3 := []
  vert_normals : List Vec3 := []
  edges : List (Nat × Nat) := []
  corner_verts : List Nat := []
  corner_edges : List Nat := []
  looptris : List MLoopTri := []
  looptri_polys : List Nat := []
deriving DecidableEq, Repr

/-- The `ELEM(v, a, b)` macro: membership of `v` in `{a, b}`. -/
def ELEM (v a b : Nat) : Bool := v == a || v == b

/-- `Nearest2dUserData_Mesh::get_vert_co`. -/
def get_vert_co (m : MeshData) (i : Nat) : Vec3 := m.vert_positions.getD i default

/-- `Nearest2dUserData_Mesh::get_edge_verts_index`. -/
def get_edge_verts_index (m : MeshData) (i : Nat) : Nat × Nat := m.edges.getD i (0, 0)

/-- `Nearest2dUserData_Mesh::get_tri_verts_index`: the three corner vertex
indices of looptri `i`. -/
def get_tri_verts_index (m : MeshData) (i : Nat) : Nat × Nat × Nat :=
  let lt := m.looptris.getD i default
  (m.corner_verts.getD lt.t0 0, m.corner_verts.getD lt.t1 0, m.corner_verts.getD lt.t2 0)

/-- One iteration of the loop in `Nearest2dUserData_Mesh::get_tri_edges_index`
for the triangle side from corner `j` to corner `j_next`: the candidate mesh
edge is `edges[corner_edges[lt->tri[j]]]`, and its index is returned only
when both of its vertices occur among the side's two corner vertices
(the `ELEM` tests of the source); otherwise `-1`. -/
def triSideEdge (m : MeshData) (lt : MLoopTri) (j jn : Nat) : Int :=
  let e := m.corner_edges.getD (lt.tri j) 0
  let edge := m.edges.getD e (0, 0)
  let a := m.corner_verts.getD (lt.tri j) 0
  let b := m.corner_verts.getD (lt.tri jn) 0
  if ELEM edge.1 a b && ELEM edge.2 a b then (e : Int) else -1

/-- `Nearest2dUserData_Mesh::get_tri_edges_index`: the loop runs for
`(j, j_next) = (2,0), (0,1), (1,2)` and writes `r_e_index[j]`; the result
triple is `(r_e_index[0], r_e_index[1], r_e_index[2])`. -/
def get_tri_edges_index (m : MeshData) (index : Nat) : Int × Int × Int :=
  let lt := m.looptris.getD index default
  (triSideEdge m lt 0 1, triSideEdge m lt 1 2, triSideEdge m lt 2 0)

/-- `BVHTreeNearest`: the running nearest candidate of a projected
nearest-point search. -/
structure BVHTreeNearest where
  index : Int := -1
  co : Vec3 := default
  no : Vec3 := default
  dist_sq : ℚ
deriving DecidableEq, Repr

/-- The state threaded through the snap callbacks.  `nearest` is the
`BVHTreeNearest` of the source; the other three fields are ghost
instrumentation used only by the theorems: `tested` records the squared
projected distance and element index of every candidate whose distance was
compared against `nearest.dist_sq` (newest first), `hist` records the value
of `nearest.dist_sq` after each such comparison (newest first), and
`edgeCalls` records the index argument of every `cb_snap_edge`
invocation (newest first). -/
structure SnapState where
  nearest : BVHTreeNearest
  tested : List (ℚ × Int) := []
  hist : List ℚ := []
  edgeCalls : List Int := []
deriving DecidableEq, Repr

/-- The fresh search state of `snapMesh` / `snap_polygon_mesh`:
`nearest.index = -1` and `nearest.dist_sq` equal to the search threshold. -/
def initSnapState (t0 : ℚ) : SnapState := {nearest := {dist_sq := t0}}

/-- The outcome of the bounding-box pre-test of `raycastMesh`
(`isect_ray_aabb_v3_simple`, declared outside this excerpt): not performed
(no bound box, or `ob_eval->data != me_eval`), a miss, or a hit together with
the `len_diff` distance it reports. -/
inductive BBoxOutcome where
  | notTested
  | miss
  | bbHit (len_diff : ℚ)
deriving DecidableEq, Repr

/-- The raw result of the BVH ray cast (`BLI_bvhtree_ray_cast`, declared
outside this excerpt): the looptri index, distance, position and normal of
the nearest accepted triangle hit, in object-local space. -/
structure RawHit where
  index : Nat
  dist : ℚ
  co : Vec3
  no : Vec3
deriving DecidableEq, Repr

/-- `BVH_RAYCAST_DIST_MAX` (`FLT_MAX`). -/
def BVH_RAYCAST_DIST_MAX : ℚ := 340282346638528859811704183484516925440

/-- The BVH ray of the source (`BVHTreeRay`). -/
structure BVHTreeRay where
  origin : Vec3
  direction : Vec3
deriving DecidableEq, Repr

/-- `BVHTreeRayHit`. -/
structure BVHTreeRayHit where
  index : Int := -1
  dist : ℚ
  co : Vec3 := default
  no : Vec3 := default
deriving DecidableEq, Repr

/-- Modelled from the spec: everything `transform_snap_object_mesh.cc` gets
from outside the excerpt, bundled as an environment.
* `looptriTree`, `looseEdgeTree`, `looseVertTree`: the element index lists of
  the BVH trees returned by `BKE_bvhtree_from_mesh_get` (`none` models a null
  tree);
* `visVert`/`dVert` and `visEdge`/`dEdge`: the clip-plane visibility and the
  squared projected distance that `test_projected_vert_dist` /
  `test_projected_edge_dist` (in `transform_snap_object.cc`, outside this
  excerpt) compute for a vertex or edge; `edgeCo` is the closest point on the
  edge that `test_projected_edge_dist` reports;
* `ray_direction`: `precalc->ray_direction` of the projected search;
* `snap_bb_ok`: the result of `Nearest2dUserData::snap_boundbox`;
* `bb_raycast`: the bounding-box pre-test outcome of `raycastMesh`;
* `bvh_hit`: the result of `BLI_bvhtree_ray_cast` in single-hit mode;
* `hit_all_added`: how many hits `BLI_bvhtree_ray_cast_all` appended;
* `obmat_point`, `imat_dir`, `imat_transposed_dir`: multiplication by the
  object matrix, by the 3x3 part of its inverse, and by the transpose of the
  3x3 part of its inverse;
* `norm_len`: the length that `normalize_v3` returns; `normalize3`: the
  normalized vector that `normalize_v3_v3` produces;
* `ray_tri_isect`: `bvhtree_ray_tri_intersection` (negative = no hit);
* `nwt_result`: the result of `nearest_world_tree`. -/
structure MeshSnapEnv where
  looptriTree : Option (List Nat) := none
  looseEdgeTree : Option (List Nat) := none
  looseVertTree : Option (List Nat) := none
  visVert : Nat → Bool := fun _ => true
  dVert : Nat → ℚ := fun _ => 0
  visEdge : Nat → Bool := fun _ => true
  dEdge : Nat → ℚ := fun _ => 0
  edgeCo : Nat → Vec3 := fun _ => default
  ray_direction : Vec3 := default
  snap_bb_ok : Bool := true
  bb_raycast : BBoxOutcome := BBoxOutcome.notTested
  bvh_hit : Option RawHit := none
  hit_all_added : Nat := 0
  obmat_point : Vec3 → Vec3 := id
  imat_dir : Vec3 → Vec3 := id
  imat_transposed_dir : Vec3 → Vec3 := id
  norm_len : Vec3 → ℚ := fun _ => 1
  normalize3 : Vec3 → Vec3 := id
  ray_tri_isect : BVHTreeRay → ℚ → Vec3 → Vec3 → Vec3 → ℚ := fun _ _ _ _ _ => -1
  nwt_result : Bool := false

/-- `SnapObjectContext::ret`: the query result slots that
`transform_snap_object_mesh.cc` reads and writes. -/
structure SnapRet where
  loc : Vec3 := default
  no : Vec3 := default
  index : Int := -1
  ray_depth_max : ℚ
  dist_px_sq : ℚ
deriving DecidableEq, Repr

/-- The parts of `SnapObjectContext` used by the embedded functions:
the result slots, `runtime.snap_to_flag`,
`runtime.params.use_backface_culling`, `runtime.object_index`, whether
`ret.hit_list` is non-null, and the world-space ray. -/
structure SnapCtx where
  ret : SnapRet
  snap_to_flag : SnapMode := {}
  use_backface_culling : Bool := false
  object_index : Nat := 0
  hit_list : Bool := false
  ray_start : Vec3 := default
  ray_dir : Vec3 := default
deriving DecidableEq, Repr

/-- The core update of every snap callback (the body of
`test_projected_vert_dist` / `test_projected_edge_dist` in
`transform_snap_object.cc`, outside this excerpt): compare the candidate's
squared projected distance `d` with `nearest->dist_sq` and, when strictly
smaller, store the candidate and the new distance.  The ghost fields `tested`
and `hist` record the comparison. -/
def snapTest (d : ℚ) (i : Int) (co no : Vec3) (s : SnapState) : SnapState :=
  if d < s.nearest.dist_sq then
    {s with nearest := {index := i, co := co, no := no, dist_sq := d},
            tested := (d, i) :: s.tested, hist := d :: s.hist}
  else
    {s with tested := (d, i) :: s.tested, hist := s.nearest.dist_sq :: s.hist}

/-- Modelled from the spec: `cb_snap_vert` of `transform_snap_object.cc`
(outside this excerpt): when vertex `i` survives the clip planes, test its
squared projected distance and record it when strictly closer; the vertex
position and normal become `nearest->co` / `nearest->no`. -/
def cb_snap_vert (env : MeshSnapEnv) (m : MeshData) (i : Nat) (s : SnapState) :
    SnapState :=
  if env.visVert i then
    snapTest (env.dVert i) (Int.ofNat i) (get_vert_co m i)
      (m.vert_normals.getD i default) s
  else s

/-- Modelled from the spec: `cb_snap_edge` of `transform_snap_object.cc`
(outside this excerpt): when edge `i` survives the clip planes, test the
squared projected distance of its segment and record it when strictly
closer; `nearest->co` becomes the closest point on the segment and
`nearest->no` the edge direction `v0 - v1`.  The ghost field `edgeCalls`
records every invocation. -/
def cb_snap_edge (env : MeshSnapEnv) (m : MeshData) (i : Int) (s : SnapState) :
    SnapState :=
  let s1 := {s with edgeCalls := i :: s.edgeCalls}
  if env.visEdge i.toNat then
    let e := get_edge_verts_index m i.toNat
    snapTest (env.dEdge i.toNat) i (env.edgeCo i.toNat)
      ((get_vert_co m e.1).sub (get_vert_co m e.2)) s1
  else s1

/-- `cb_snap_edge_verts` of `transform_snap_object_mesh.cc`: snap to the two
endpoint vertices of edge `index`; the loop runs `i = 1, 0` and skips an
endpoint whose index equals the current `nearest->index`. -/
def cb_snap_edge_verts (env : MeshSnapEnv) (m : MeshData) (index : Nat)
    (s : SnapState) : SnapState :=
  let e := get_edge_verts_index m index
  let s1 := if Int.ofNat e.2 = s.nearest.index then s else cb_snap_vert env m e.2 s
  if Int.ofNat e.1 = s1.nearest.index then s1 else cb_snap_vert env m e.1 s1

/-- `cb_snap_tri_verts` of `transform_snap_object_mesh.cc`: with back-face
culling enabled, return at once when the culling test passes for the
triangle; otherwise snap to the three corner vertices (loop `i = 2, 1, 0`),
skipping a vertex whose index equals the current `nearest->index`. -/
def cb_snap_tri_verts (env : MeshSnapEnv) (m : MeshData) (bfc : Bool)
    (index : Nat) (s : SnapState) : SnapState :=
  let v := get_tri_verts_index m index
  if bfc && raycast_tri_backface_culling_test env.ray_direction
      (get_vert_co m v.1) (get_vert_co m v.2.1) (get_vert_co m v.2.2) then s
  else
    let s1 := if Int.ofNat v.2.2 = s.nearest.index then s else cb_snap_vert env m v.2.2 s
    let s2 := if Int.ofNat v.2.1 = s1.nearest.index then s1 else cb_snap_vert env m v.2.1 s1
    if Int.ofNat v.1 = s2.nearest.index then s2 else cb_snap_vert env m v.1 s2

/-- One iteration of the edge loop of `cb_snap_tri_edges`: skip a side whose
edge index is `-1` or equals the current `nearest->index`, otherwise call
`cb_snap_edge`. -/
def cbTriEdgeStep (env : MeshSnapEnv) (m : MeshData) (e : Int) (s : SnapState) :
    SnapState :=
  if e ≠ -1 then (if e = s.nearest.index then s else cb_snap_edge env m e s) else s

/-- `cb_snap_tri_edges` of `transform_snap_object_mesh.cc`: with back-face
culling enabled, return at once when the culling test passes for the
triangle; otherwise snap to the real mesh edges reported by
`get_tri_edges_index` (loop `i = 2, 1, 0`). -/
def cb_snap_tri_edges (env : MeshSnapEnv) (m : MeshData) (bfc : Bool)
    (index : Nat) (s : SnapState) : SnapState :=
  if bfc && (
      let v := get_tri_verts_index m index
      raycast_tri_backface_culling_test env.ray_direction
        (get_vert_co m v.1) (get_vert_co m v.2.1) (get_vert_co m v.2.2)) then s
  else
    let e := get_tri_edges_index m index
    cbTriEdgeStep env m e.1 (cbTriEdgeStep env m e.2.1 (cbTriEdgeStep env m e.2.2 s))

/-- Modelled from the spec: `BLI_bvhtree_find_nearest_projected` (BVH
library, outside this excerpt) performs a projected nearest-point search,
invoking the callback on candidate elements of the tree; the BVH pruning
only skips elements that cannot beat the current nearest, so the search is
modelled as invoking the callback on every element stored in the tree. -/
def bvhFindNearestProjected (tree : List Nat) (cb : Nat → SnapState → SnapState)
    (s : SnapState) : SnapState :=
  tree.foldl (fun st i => cb i st) s

/-- `mesh_looptri_raycast_backface_culling_cb` of
`transform_snap_object_mesh.cc`: intersect the ray with looptri `index` and
record the hit only when it is closer than the current one and the back-face
culling test passes. -/
def mesh_looptri_raycast_backface_culling_cb (env : MeshSnapEnv) (m : MeshData)
    (index : Nat) (ray : BVHTreeRay) (hit : BVHTreeRayHit) : BVHTreeRayHit :=
  let v := get_tri_verts_index m index
  let v0 := get_vert_co m v.1
  let v1 := get_vert_co m v.2.1
  let v2 := get_vert_co m v.2.2
  let dist := env.ray_tri_isect ray hit.dist v0 v1 v2
  if 0 ≤ dist ∧ dist < hit.dist then
    if raycast_tri_backface_culling_test ray.direction v0 v1 v2 then
      {index := Int.ofNat index, dist := dist,
       co := madd_v3_v3v3fl ray.origin ray.direction dist,
       no := env.normalize3 (cross_tri_v3 v0 v1 v2)}
    else hit
  else hit

/-- The `local_scale` of `raycastMesh`: the length `normalize_v3` reports
for the ray direction transformed into object space. -/
def raycastLocalScale (env : MeshSnapEnv) (sctx : SnapCtx) : ℚ :=
  env.norm_len (env.imat_dir sctx.ray_dir)

/-- The `len_diff` of `raycastMesh` after its adjustment step: the distance
reported by the bounding-box pre-test when it exceeds 400 (minus
`local_scale`), else 0. -/
def raycastLenDiff (env : MeshSnapEnv) (sctx : SnapCtx) : ℚ :=
  let len_diff0 : ℚ :=
    match env.bb_raycast with
    | BBoxOutcome.bbHit l => l
    | _ => 0
  if 400 < len_diff0 then len_diff0 - raycastLocalScale env sctx else 0

/-- `raycastMesh` of `transform_snap_object_mesh.cc`.  The `ob_index`
argument of the source is used only to tag hit-list entries and is dropped;
in hit-list mode the appended entries themselves are not modelled, only
whether any were.  Returns the C return value together with the updated
context. -/
def raycastMesh (env : MeshSnapEnv) (sctx : SnapCtx) (m : MeshData) :
    Bool × SnapCtx :=
  if m.totpoly = 0 then (false, sctx)
  else
    match env.bb_raycast with
    | BBoxOutcome.miss => (false, sctx)
    | _ =>
      let local_scale := raycastLocalScale env sctx
      let len_diff := raycastLenDiff env sctx
      match env.looptriTree with
      | none => (false, sctx)
      | some _ =>
        if sctx.hit_list then (env.hit_all_added != 0, sctx)
        else
          match env.bvh_hit with
          | none => (false, sctx)
          | some h =>
            let d := (h.dist + len_diff) / local_scale
            if d ≤ sctx.ret.ray_depth_max then
              (true, {sctx with ret := {sctx.ret with
                 loc := env.obmat_point h.co,
                 no := env.normalize3 (env.imat_transposed_dir h.no),
                 ray_depth_max := d,
                 index := Int.ofNat (m.looptri_polys.getD h.index 0)}})
            else (false, sctx)

/-- `nearest_world_mesh` of `transform_snap_object_mesh.cc`: `false` when
the looptri BVH tree is null, otherwise the result of the external
`nearest_world_tree` (which is `env.nwt_result`; its writes to the context
happen outside this excerpt and are not modelled). -/
def nearest_world_mesh (env : MeshSnapEnv) (_m : MeshData) : Bool :=
  match env.looptriTree with
  | none => false
  | some _ => env.nwt_result

/-- `mesh_snap_mode_supported` of `transform_snap_object_mesh.cc`. -/
def mesh_snap_mode_supported (m : MeshData) : SnapMode :=
  let s0 := SCE_SNAP_TO_NONE
  let s1 := if m.totpoly ≠ 0 then s0.or (SCE_SNAP_TO_FACE.or SCE_SNAP_INDIVIDUAL_NEAREST)
            else s0
  let s2 := if m.totedge ≠ 0 then
              s1.or ((SCE_SNAP_TO_EDGE.or SCE_SNAP_TO_EDGE_MIDPOINT).or
                SCE_SNAP_TO_EDGE_PERPENDICULAR)
            else s1
  if m.totvert ≠ 0 then s2.or SCE_SNAP_TO_VERTEX else s2

/-- The "snap to loose verts" search of `snapMesh` (run on `bvhtree[1]` when
it exists), paired with the ghost log of attempted snap modes. -/
def snapMeshLooseVertPhase (env : MeshSnapEnv) (m : MeshData)
    (bvh1 : Option (List Nat)) (s0 : SnapState) : SnapState × List SnapMode :=
  match bvh1 with
  | some l => (bvhFindNearestProjected l (cb_snap_vert env m) s0, [SCE_SNAP_TO_VERTEX])
  | none => (s0, [])

/-- The edge branch of `snapMesh` (`snap_to_flag & SCE_SNAP_TO_EDGE`): snap
to loose edges on `bvhtree[0]`, then to looptri edges on `treedata.tree`. -/
def snapMeshEdgePhase (env : MeshSnapEnv) (m : MeshData) (ubfc : Bool)
    (bvh0 tritree : Option (List Nat)) (p : SnapState × List SnapMode) :
    SnapState × List SnapMode :=
  let p2 : SnapState × List SnapMode :=
    match bvh0 with
    | some l => (bvhFindNearestProjected l
        (fun i => cb_snap_edge env m (Int.ofNat i)) p.1, p.2 ++ [SCE_SNAP_TO_EDGE])
    | none => p
  match tritree with
  | some l => (bvhFindNearestProjected l (cb_snap_tri_edges env m ubfc) p2.1,
      p2.2 ++ [SCE_SNAP_TO_EDGE])
  | none => p2

/-- The vertex-only branch of `snapMesh` (no `SCE_SNAP_TO_EDGE` flag): snap
to loose edge verts on `bvhtree[0]`, then to looptri verts on
`treedata.tree`. -/
def snapMeshVertPhase (env : MeshSnapEnv) (m : MeshData) (ubfc : Bool)
    (bvh0 tritree : Option (List Nat)) (p : SnapState × List SnapMode) :
    SnapState × List SnapMode :=
  let p2 : SnapState × List SnapMode :=
    match bvh0 with
    | some l => (bvhFindNearestProjected l (cb_snap_edge_verts env m) p.1,
        p.2 ++ [SCE_SNAP_TO_VERTEX])
    | none => p
  match tritree with
  | some l => (bvhFindNearestProjected l (cb_snap_tri_verts env m ubfc) p2.1,
      p2.2 ++ [SCE_SNAP_TO_VERTEX])
  | none => p2

/-- The searching part of `snapMesh` (after its early returns): the
loose-vertex search followed by the edge branch or the vertex-only branch,
returning the final search state, the ghost log, and the `elem` value (the
source's `elem` local: `SCE_SNAP_TO_EDGE` only when the edge phases changed
`nearest.index`, else `SCE_SNAP_TO_VERTEX`). -/
def snapMeshSearch (env : MeshSnapEnv) (sctx : SnapCtx) (m : MeshData) :
    SnapState × List SnapMode × SnapMode :=
  let s0 := initSnapState sctx.ret.dist_px_sq
  let bvh0 := env.looseEdgeTree
  let bvh1 := if sctx.snap_to_flag.toVertex then env.looseVertTree else none
  let tritree := env.looptriTree
  let p1 := snapMeshLooseVertPhase env m bvh1 s0
  let lastIndex := p1.1.nearest.index
  if sctx.snap_to_flag.toEdge then
    let p2 := snapMeshEdgePhase env m sctx.use_backface_culling bvh0 tritree p1
    (p2.1, p2.2, if lastIndex ≠ p2.1.nearest.index then SCE_SNAP_TO_EDGE
                 else SCE_SNAP_TO_VERTEX)
  else
    let p2 := snapMeshVertPhase env m sctx.use_backface_culling bvh0 tritree p1
    (p2.1, p2.2, SCE_SNAP_TO_VERTEX)

/-- `snapMesh` of `transform_snap_object_mesh.cc`, returning the snap mode,
the final search state (whose `nearest` field is the `nearest2d.nearest_point`
stored on success), and a ghost log of the snap modes attempted: one entry
per BVH search actually launched (`SCE_SNAP_TO_VERTEX` for a search that
tests vertices, `SCE_SNAP_TO_EDGE` for one that tests edges).  `snapMesh`
never writes `sctx->ret`; its caller converts the stored nearest point
later. -/
def snapMesh (env : MeshSnapEnv) (sctx : SnapCtx) (m : MeshData) :
    SnapMode × SnapState × List SnapMode :=
  let s0 := initSnapState sctx.ret.dist_px_sq
  if m.totvert = 0 then (SCE_SNAP_TO_NONE, s0, [])
  else if m.totedge = 0 && !sctx.snap_to_flag.toVertex then (SCE_SNAP_TO_NONE, s0, [])
  else if !env.snap_bb_ok then (SCE_SNAP_TO_NONE, s0, [])
  else
    let pe := snapMeshSearch env sctx m
    if pe.1.nearest.index ≠ -1 then (pe.2.2, pe.1, pe.2.1)
    else (SCE_SNAP_TO_NONE, pe.1, pe.2.1)

/-- The flag mask `SCE_SNAP_TO_EDGE | SCE_SNAP_TO_EDGE_MIDPOINT |
SCE_SNAP_TO_EDGE_PERPENDICULAR | SCE_SNAP_TO_VERTEX` of
`snap_object_mesh`. -/
def snapEdgeVertMask : SnapMode :=
  ((SCE_SNAP_TO_EDGE.or SCE_SNAP_TO_EDGE_MIDPOINT).or
    SCE_SNAP_TO_EDGE_PERPENDICULAR).or SCE_SNAP_TO_VERTEX

/-- The `SCE_SNAP_INDIVIDUAL_NEAREST` stage of `snap_object_mesh`. -/
def snapObjectMeshWorldStage (env : MeshSnapEnv) (sctx : SnapCtx) (m : MeshData)
    (used : SnapMode) (log : List SnapMode) : SnapMode × SnapCtx × List SnapMode :=
  if used.individualNearest then
    if nearest_world_mesh env m then
      (SCE_SNAP_INDIVIDUAL_NEAREST, sctx, log ++ [SCE_SNAP_INDIVIDUAL_NEAREST])
    else (SCE_SNAP_TO_NONE, sctx, log ++ [SCE_SNAP_INDIVIDUAL_NEAREST])
  else (SCE_SNAP_TO_NONE, sctx, log)

/-- The `SCE_SNAP_TO_FACE` ray-cast stage of `snap_object_mesh` followed by
the world stage.  The source passes `sctx->runtime.object_index++` to
`raycastMesh`; the increment is kept, the passed value is only a hit-list
tag and is dropped. -/
def snapObjectMeshRaycastStage (env : MeshSnapEnv) (sctx : SnapCtx) (m : MeshData)
    (used : SnapMode) (log : List SnapMode) : SnapMode × SnapCtx × List SnapMode :=
  if used.toFace then
    let sctx1 := {sctx with object_index := sctx.object_index + 1}
    let r := raycastMesh env sctx1 m
    if r.1 then (SCE_SNAP_TO_FACE, r.2, log ++ [SCE_SNAP_TO_FACE])
    else snapObjectMeshWorldStage env r.2 m used (log ++ [SCE_SNAP_TO_FACE])
  else snapObjectMeshWorldStage env sctx m used log

/-- `snap_object_mesh` of `transform_snap_object_mesh.cc`, with the ghost
log of attempted snap modes threaded through the stages. -/
def snap_object_mesh (env : MeshSnapEnv) (sctx : SnapCtx) (m : MeshData)
    (snap_to_flag : SnapMode) : SnapMode × SnapCtx × List SnapMode :=
  let snap_mode_used := snap_to_flag.and (mesh_snap_mode_supported m)
  if snap_mode_used.hasAny snapEdgeVertMask then
    let r := snapMesh env sctx m
    if r.1 ≠ SCE_SNAP_TO_NONE then (r.1, sctx, r.2.2)
    else snapObjectMeshRaycastStage env sctx m snap_mode_used r.2.2
  else snapObjectMeshRaycastStage env sctx m snap_mode_used []

/-- The invariant of the projected nearest-point search, with threshold `t0`
(the `sctx->ret.dist_px_sq` the search starts from): the running `dist_sq`
never exceeds the threshold, equals it while no candidate has been accepted,
is strictly below it once one has, the accepted candidate is one of the
tested ones at exactly the running distance, every tested candidate is at
distance at least the running `dist_sq`, the history of `dist_sq` values is
non-increasing over time (`hist` is newest first), and the newest history
entry is the current `dist_sq`. -/
def SnapInv (t0 : ℚ) (s : SnapState) : Prop :=
  s.nearest.dist_sq ≤ t0 ∧
  (s.nearest.index = -1 → s.nearest.dist_sq = t0) ∧
  (s.nearest.index ≠ -1 →
    s.nearest.dist_sq < t0 ∧
    ∃ p ∈ s.tested, p.2 = s.nearest.index ∧ p.1 = s.nearest.dist_sq) ∧
  (∀ p ∈ s.tested, s.nearest.dist_sq ≤ p.1) ∧
  List.Chain' (· ≤ ·) (s.hist ++ [t0]) ∧
  (∀ x ∈ s.hist.head?, x = s.nearest.dist_sq)

/-!  ### Concrete fixtures used to evaluate the embedded functions  -/

/-- A two-vertex mesh (concrete evaluation fixture). -/
def mW1 : MeshData :=
  {totvert := 2, vert_positions := [⟨0, 0, 0⟩, ⟨1, 0, 0⟩],
   vert_normals := [⟨0, 0, 1⟩, ⟨0, 0, 1⟩]}

/-- A context requesting vertex snapping with threshold 2 (fixture). -/
def sctxW1 : SnapCtx :=
  {ret := {ray_depth_max := 1, dist_px_sq := 2}, snap_to_flag := {toVertex := true}}

/-- An environment with a loose-vertex tree over `mW1` whose projected
distances are `0` and `1` (fixture). -/
def envW1 : MeshSnapEnv :=
  {looseVertTree := some [0, 1], dVert := fun i => (i : ℚ)}

/-- A one-triangle mesh (fixture for the ray cast). -/
def mW2 : MeshData :=
  {totvert := 3, totpoly := 1,
   vert_positions := [⟨0, 0, 0⟩, ⟨1, 0, 0⟩, ⟨0, 1, 0⟩],
   vert_normals := [⟨0, 0, 1⟩, ⟨0, 0, 1⟩, ⟨0, 0, 1⟩],
   corner_verts := [0, 1, 2], looptris := [⟨0, 1, 2⟩], looptri_polys := [0]}

/-- A context for a single-hit ray cast with depth budget 1 (fixture). -/
def sctxW2 : SnapCtx := {ret := {ray_depth_max := 1, dist_px_sq := 1}}

/-- An environment whose BVH ray cast reports a hit at distance 1/2
(fixture). -/
def envW2 : MeshSnapEnv :=
  {looptriTree := some [0],
   bvh_hit := some {index := 0, dist := 1/2, co := ⟨0, 0, 1/2⟩, no := ⟨0, 0, -1⟩}}

/-- A mesh with two vertices, one edge and no polygon (fixture). -/
def mW4 : MeshData :=
  {totvert := 2, totedge := 1, vert_positions := [⟨0, 0, 0⟩, ⟨1, 0, 0⟩],
   vert_normals := [⟨0, 0, 1⟩, ⟨0, 0, 1⟩], edges := [(0, 1)]}

/-- A context requesting vertex and edge snapping (fixture). -/
def sctxW4 : SnapCtx :=
  {ret := {ray_depth_max := 1, dist_px_sq := 2},
   snap_to_flag := {toVertex := true, toEdge := true}}

/-- An environment with loose-vertex and loose-edge trees over `mW4`
(fixture). -/
def envW4 : MeshSnapEnv :=
  {looseVertTree := some [0, 1], looseEdgeTree := some [0],
   dVert := fun i => (i : ℚ) + 1, dEdge := fun _ => 1/2}

/-- A single triangle lying in the plane `z = 0` with counter-clockwise
winding seen from `-z`: its `cross_tri_v3` normal is `(0, 0, 1)`, so for the
ray direction `(0, 0, 1)` it is back-facing (fixture). -/
def mC9 : MeshData :=
  {totvert := 3, totedge := 3, totpoly := 1,
   vert_positions := [⟨0, 0, 0⟩, ⟨1, 0, 0⟩, ⟨0, 1, 0⟩],
   vert_normals := [⟨0, 0, -1⟩, ⟨0, 0, -1⟩, ⟨0, 0, -1⟩],
   edges := [(0, 1), (1, 2), (2, 0)], corner_verts := [0, 1, 2],
   corner_edges := [0, 1, 2], looptris := [⟨0, 1, 2⟩], looptri_polys := [0]}

/-- The same triangle with reversed winding (`cross_tri_v3` normal
`(0, 0, -1)`), front-facing for the ray direction `(0, 0, 1)` (fixture). -/
def mC9f : MeshData :=
  {totvert := 3, totpoly := 1,
   vert_positions := [⟨0, 0, 0⟩, ⟨1, 0, 0⟩, ⟨0, 1, 0⟩],
   vert_normals := [⟨0, 0, 1⟩, ⟨0, 0, 1⟩, ⟨0, 0, 1⟩],
   corner_verts := [0, 2, 1], looptris := [⟨0, 1, 2⟩], looptri_polys := [0]}

/-- Snap environment looking along `(0, 0, 1)` where every vertex projects
at squared distance 1, inside the threshold 2; the modelled ray-triangle
intersection reports distance 1 (fixture). -/
def envC9 : MeshSnapEnv :=
  {ray_direction := ⟨0, 0, 1⟩, dVert := fun _ => 1, dEdge := fun _ => 1,
   ray_tri_isect := fun _ _ _ _ _ => 1}

/-- The BVH ray of the C9 fixture: origin at `(0, 0, -1)`, direction
`(0, 0, 1)`. -/
def rayC9 : BVHTreeRay := {origin := ⟨0, 0, -1⟩, direction := ⟨0, 0, 1⟩}

/-- An unresolved ray hit with search radius 5 (fixture). -/
def hitC9 : BVHTreeRayHit := {dist := 5}

/-- A mesh whose looptri 0 has the degenerate edge `(1, 1)` recorded as the
corner edge of the side joining corner vertices `0` and `1` (fixture for the
`ELEM` test of `get_tri_edges_index`). -/
def mC10 : MeshData :=
  {totvert := 2, totedge := 1, totpoly := 1,
   vert_positions := [⟨0, 0, 0⟩, ⟨1, 0, 0⟩],
   vert_normals := [⟨0, 0, 1⟩, ⟨0, 0, 1⟩],
   edges := [(1, 1)], corner_verts := [0, 1, 1], corner_edges := [0, 0, 0],
   looptris := [⟨0, 1, 2⟩], looptri_polys := [0]}

/-- A well-formed one-triangle mesh whose side from corner 0 to corner 1 is
the real, non-degenerate mesh edge `(0, 1)` (fixture). -/
def mC10w : MeshData :=
  {totvert := 3, totedge := 1, totpoly := 1,
   vert_positions := [⟨0, 0, 0⟩, ⟨1, 0, 0⟩, ⟨0, 1, 0⟩],
   vert_normals := [⟨0, 0, 1⟩, ⟨0, 0, 1⟩, ⟨0, 0, 1⟩],
   edges := [(0, 1)], corner_verts := [0, 1, 2], corner_edges := [0, 0, 0],
   looptris := [⟨0, 1, 2⟩], looptri_polys := [0]}

/-!  ## Theorems  -/

/-- C5: `register_node_type_sh_test` registers a shader node named
"Shader Test" whose declaration has exactly four inputs in order — Color
with default value (0.8, 0.8, 0.8, 1.0); Roughness with default 0.0,
minimum 0.0, maximum 1.0 and factor subtype; Normal with hidden value;
Weight marked unavailable — and exactly one output, a Shader socket named
BSDF. -/
theorem register_node_type_sh_test_spec (reg : NodeRegistry) :
    ∃ nt : BNodeType,
      (register_node_type_sh_test reg).types = reg.types ++ [nt] ∧
      nt.uiName = "Shader Test" ∧
      nt.declaration = node_declare ∧
      (∃ i0 i1 i2 i3 : SocketDecl, node_declare.inputs = [i0, i1, i2, i3] ∧
        (i0.stype = SocketType.color ∧ i0.name = "Color" ∧
          i0.defaultValue = some [4/5, 4/5, 4/5, 1]) ∧
        (i1.stype = SocketType.float ∧ i1.name = "Roughness" ∧
          i1.defaultValue = some [0] ∧ i1.minValue = some 0 ∧
          i1.maxValue = some 1 ∧ i1.subtypeOf = PropSubtype.propFactor) ∧
        (i2.stype = SocketType.vector ∧ i2.name = "Normal" ∧
          i2.hideValue = true) ∧
        (i3.stype = SocketType.float ∧ i3.name = "Weight" ∧
          i3.isUnavailable = true)) ∧
      (∃ o : SocketDecl, node_declare.outputs = [o] ∧
        o.stype = SocketType.shader ∧ o.name = "BSDF") := by
  refine ⟨_, rfl, rfl, rfl,
    ⟨(declColor "Color").withDefault [4/5, 4/5, 4/5, 1],
     (((declFloat "Roughness").withDefault [0]).withMin 0).withMax 1
       |>.withSubtype PropSubtype.propFactor,
     (declVector "Normal").withHideValue,
     (declFloat "Weight").withUnavailable, ?_, ?_⟩,
    ⟨declShader "BSDF", ?_, ?_⟩⟩ <;>
  simp [node_declare, NodeDeclaration.addInput, NodeDeclaration.addOutput,
    declColor, declFloat, declVector, declShader, SocketDecl.withDefault,
    SocketDecl.withMin, SocketDecl.withMax, SocketDecl.withSubtype,
    SocketDecl.withHideValue, SocketDecl.withUnavailable]

/-- Setting a flag bit mask makes it present: `(f | g) & g = g`. -/
theorem natOrAndSelf (f g : Nat) : (f ||| g) &&& g = g := by
  apply Nat.eq_of_testBit_eq
  intro i
  rw [Nat.testBit_and, Nat.testBit_or]
  cases hg : Nat.testBit g i <;> simp [hg]

/-- C6: for every invocation of `node_shader_gpu_shader_test`, if the Normal
input `in[2]` has no incoming link then a `world_normals_get` link is created
for it, otherwise the existing link is left untouched; in either case the
`GPU_MATFLAG_DIFFUSE` material flag is set, and the function returns the
result of stack-linking the `node_shader_test` GPU function. -/
theorem node_shader_gpu_shader_test_spec (st : Int) (mat : GPUMaterial)
    (ins : List GPUNodeStack) (hlen : 2 < ins.length) :
    ((ins.getD 2 {}).link = none →
      (∃ lid : Nat,
        ((node_shader_gpu_shader_test st mat ins).2.1.getD 2 {}).link = some lid) ∧
      "world_normals_get" ∈ (node_shader_gpu_shader_test st mat ins).1.linked) ∧
    ((ins.getD 2 {}).link ≠ none →
      (node_shader_gpu_shader_test st mat ins).2.1 = ins) ∧
    ((node_shader_gpu_shader_test st mat ins).1.flags &&& GPU_MATFLAG_DIFFUSE =
      GPU_MATFLAG_DIFFUSE) ∧
    (node_shader_gpu_shader_test st mat ins).2.2 = st ∧
    (node_shader_gpu_shader_test st mat ins).1.linked.getLast? =
      some "node_shader_test" := by
  have hins : ((ins.set 2 ({link := some mat.nextLinkId} : GPUNodeStack)).getD 2
      {}).link = some mat.nextLinkId := by
    rw [List.getD_eq_getElem?_getD, List.getElem?_set_eq_of_lt _ hlen]
    rfl
  refine ⟨?_, ?_, ?_, ?_, ?_⟩
  · intro h2
    rw [List.getD_eq_getElem?_getD] at h2
    refine ⟨⟨mat.nextLinkId, ?_⟩, ?_⟩
    · simpa [node_shader_gpu_shader_test, h2, GPU_link] using hins
    · simp [node_shader_gpu_shader_test, h2, GPU_link, GPU_material_flag_set,
        GPU_stack_link]
  · intro h2
    rw [List.getD_eq_getElem?_getD] at h2
    simp [node_shader_gpu_shader_test, h2, GPU_link]
  · by_cases h2 : (ins[2]?.getD ({link := none} : GPUNodeStack)).link = none <;>
      simp [node_shader_gpu_shader_test, h2, GPU_link, GPU_material_flag_set,
        GPU_stack_link, natOrAndSelf]
  · by_cases h2 : (ins[2]?.getD ({link := none} : GPUNodeStack)).link = none <;>
      simp [node_shader_gpu_shader_test, h2, GPU_link, GPU_material_flag_set,
        GPU_stack_link]
  · by_cases h2 : (ins[2]?.getD ({link := none} : GPUNodeStack)).link = none <;>
      simp [node_shader_gpu_shader_test, h2, GPU_link, GPU_material_flag_set,
        GPU_stack_link, List.getLast?_concat]

/-- C7: `nearest_world_mesh` returns `false` whenever the looptri BVH tree
obtained for the mesh is null, and otherwise returns exactly the result of
`nearest_world_tree` on that tree; `raycastMesh` likewise returns `false`
without any hit (context unchanged) whenever the looptri BVH tree is null. -/
theorem nearest_world_mesh_null_tree (env : MeshSnapEnv) (sctx : SnapCtx)
    (m : MeshData) :
    (env.looptriTree = none →
      nearest_world_mesh env m = false ∧ raycastMesh env sctx m = (false, sctx)) ∧
    (env.looptriTree ≠ none → nearest_world_mesh env m = env.nwt_result) := by
  constructor
  · intro h
    constructor
    · simp [nearest_world_mesh, h]
    · by_cases hp : m.totpoly = 0
      · simp [raycastMesh, hp]
      · rcases hbb : env.bb_raycast with _ | _ | l <;>
          simp [raycastMesh, hp, hbb, h]
  · intro h
    rcases ht : env.looptriTree with _ | l
    · exact absurd ht h
    · simp [nearest_world_mesh, ht]

/-- Witness for C7 at a concrete context with a null looptri tree. -/
theorem nearest_world_mesh_null_tree_witness :
    (({} : MeshSnapEnv).looptriTree = none →
      nearest_world_mesh {} {} = false ∧
      raycastMesh {} {ret := {ray_depth_max := 1, dist_px_sq := 1}} {} =
        (false, {ret := {ray_depth_max := 1, dist_px_sq := 1}})) ∧
    (({} : MeshSnapEnv).looptriTree ≠ none →
      nearest_world_mesh {} {} = ({} : MeshSnapEnv).nwt_result) :=
  nearest_world_mesh_null_tree {} {ret := {ray_depth_max := 1, dist_px_sq := 1}} {}

/-- C8: on empty geometry the snapping entry points fail without modifying
the snap result state: `raycastMesh` returns `false` with the context
unchanged when `totpoly == 0`, and `snapMesh` returns `SCE_SNAP_TO_NONE`
with the pristine initial search state (no candidate tested, nothing stored)
when `totvert == 0`, or when `totedge == 0` and vertex snapping is not
requested.  `snapMesh` never writes `sctx->ret` at all, so `sctx` is
unchanged in its cases as well. -/
theorem snap_empty_geometry (env : MeshSnapEnv) (sctx : SnapCtx) (m : MeshData) :
    (m.totpoly = 0 → raycastMesh env sctx m = (false, sctx)) ∧
    (m.totvert = 0 →
      snapMesh env sctx m =
        (SCE_SNAP_TO_NONE, initSnapState sctx.ret.dist_px_sq, [])) ∧
    (m.totedge = 0 → sctx.snap_to_flag.toVertex = false →
      snapMesh env sctx m =
        (SCE_SNAP_TO_NONE, initSnapState sctx.ret.dist_px_sq, [])) := by
  refine ⟨?_, ?_, ?_⟩
  · intro h
    simp [raycastMesh, h]
  · intro h
    simp [snapMesh, h]
  · intro he hv
    by_cases h : m.totvert = 0
    · simp [snapMesh, h]
    · simp [snapMesh, h, he, hv]

/-- Witness for C8 on an empty mesh. -/
theorem snap_empty_geometry_witness :
    (({} : MeshData).totpoly = 0 →
      raycastMesh {} {ret := {ray_depth_max := 2, dist_px_sq := 3}} {} =
        (false, {ret := {ray_depth_max := 2, dist_px_sq := 3}})) ∧
    (({} : MeshData).totvert = 0 →
      snapMesh {} {ret := {ray_depth_max := 2, dist_px_sq := 3}} {} =
        (SCE_SNAP_TO_NONE, initSnapState 3, [])) ∧
    (({} : MeshData).totedge = 0 →
      ({ret := {ray_depth_max := 2, dist_px_sq := 3}} : SnapCtx).snap_to_flag.toVertex
        = false →
      snapMesh {} {ret := {ray_depth_max := 2, dist_px_sq := 3}} {} =
        (SCE_SNAP_TO_NONE, initSnapState 3, [])) :=
  snap_empty_geometry {} {ret := {ray_depth_max := 2, dist_px_sq := 3}} {}

/-- `SnapInv` only looks at `nearest`, `tested` and `hist`, so rewriting the
ghost `edgeCalls` log preserves it. -/
theorem snapInv_edgeCalls (t0 : ℚ) (s : SnapState) (l : List Int)
    (h : SnapInv t0 s) : SnapInv t0 {s with edgeCalls := l} := h

/-- `SnapInv` is preserved by an `if`. -/
theorem ite_snapInv (t0 : ℚ) (P : Prop) [Decidable P] (s1 s2 : SnapState)
    (h1 : SnapInv t0 s1) (h2 : SnapInv t0 s2) :
    SnapInv t0 (if P then s1 else s2) := by
  split <;> assumption

/-- One distance comparison preserves the search invariant (for any
candidate with a valid element index). -/
theorem snapTest_inv (t0 d : ℚ) (i : Int) (co no : Vec3) (s : SnapState)
    (hi : i ≠ -1) (h : SnapInv t0 s) : SnapInv t0 (snapTest d i co no s) := by
  obtain ⟨h1, h2, h3, h4, h5, h6⟩ := h
  unfold snapTest
  by_cases hd : d < s.nearest.dist_sq
  · rw [if_pos hd]
    refine ⟨le_trans (le_of_lt hd) h1, fun hia => absurd hia hi, ?_, ?_, ?_, ?_⟩
    · intro _
      refine ⟨lt_of_lt_of_le hd h1, (d, i), List.mem_cons_self _ _, rfl, rfl⟩
    · intro p hp
      rcases List.mem_cons.mp hp with hp | hp
      · rw [hp]
      · exact le_trans (le_of_lt hd) (h4 p hp)
    · rw [List.cons_append, List.chain'_cons']
      refine ⟨?_, h5⟩
      intro y hy
      cases hh : s.hist with
      | nil =>
        rw [hh] at hy
        simp at hy
        rw [← hy]
        exact le_trans (le_of_lt hd) h1
      | cons a l =>
        rw [hh] at hy
        simp at hy
        have ha : a = s.nearest.dist_sq := h6 a (by rw [hh]; rfl)
        rw [← hy, ha]
        exact le_of_lt hd
    · intro x hx
      simp at hx
      exact hx.symm
  · rw [if_neg hd]
    refine ⟨h1, h2, ?_, ?_, ?_, ?_⟩
    · intro hidx
      obtain ⟨hlt, p, hp, hpi, hpd⟩ := h3 hidx
      exact ⟨hlt, p, List.mem_cons_of_mem _ hp, hpi, hpd⟩
    · intro p hp
      rcases List.mem_cons.mp hp with hp | hp
      · rw [hp]
        exact le_of_not_lt hd
      · exact h4 p hp
    · rw [List.cons_append, List.chain'_cons']
      refine ⟨?_, h5⟩
      intro y hy
      cases hh : s.hist with
      | nil =>
        rw [hh] at hy
        simp at hy
        rw [← hy]
        exact h1
      | cons a l =>
        rw [hh] at hy
        simp at hy
        have ha : a = s.nearest.dist_sq := h6 a (by rw [hh]; rfl)
        rw [← hy, ha]
    · intro x hx
      simp at hx
      exact hx.symm

/-- A natural number cast to `Int` is never `-1`. -/
theorem intOfNat_ne_negOne (i : Nat) : Int.ofNat i ≠ -1 := by
  intro hc
  simp only [Int.ofNat_eq_coe] at hc
  omega

/-- `cb_snap_vert` preserves the search invariant. -/
theorem cb_snap_vert_inv (env : MeshSnapEnv) (m : MeshData) (i : Nat) (t0 : ℚ)
    (s : SnapState) (h : SnapInv t0 s) : SnapInv t0 (cb_snap_vert env m i s) := by
  unfold cb_snap_vert
  split
  · exact snapTest_inv _ _ _ _ _ _ (intOfNat_ne_negOne i) h
  · exact h

/-- `cb_snap_edge` preserves the search invariant (its index argument is
never `-1` at its call sites). -/
theorem cb_snap_edge_inv (env : MeshSnapEnv) (m : MeshData) (i : Int)
    (hi : i ≠ -1) (t0 : ℚ) (s : SnapState) (h : SnapInv t0 s) :
    SnapInv t0 (cb_snap_edge env m i s) := by
  unfold cb_snap_edge
  split
  · exact snapTest_inv _ _ _ _ _ _ hi h
  · exact h

/-- `cb_snap_edge_verts` preserves the search invariant. -/
theorem cb_snap_edge_verts_inv (env : MeshSnapEnv) (m : MeshData) (index : Nat)
    (t0 : ℚ) (s : SnapState) (h : SnapInv t0 s) :
    SnapInv t0 (cb_snap_edge_verts env m index s) := by
  simp only [cb_snap_edge_verts]
  apply ite_snapInv
  · exact ite_snapInv _ _ _ _ h (cb_snap_vert_inv _ _ _ _ _ h)
  · exact cb_snap_vert_inv _ _ _ _ _
      (ite_snapInv _ _ _ _ h (cb_snap_vert_inv _ _ _ _ _ h))

/-- `cb_snap_tri_verts` preserves the search invariant. -/
theorem cb_snap_tri_verts_inv (env : MeshSnapEnv) (m : MeshData) (bfc : Bool)
    (index : Nat) (t0 : ℚ) (s : SnapState) (h : SnapInv t0 s) :
    SnapInv t0 (cb_snap_tri_verts env m bfc index s) := by
  simp only [cb_snap_tri_verts]
  apply ite_snapInv _ _ _ _ h
  apply ite_snapInv
  · exact ite_snapInv _ _ _ _
      (ite_snapInv _ _ _ _ h (cb_snap_vert_inv _ _ _ _ _ h))
      (cb_snap_vert_inv _ _ _ _ _
        (ite_snapInv _ _ _ _ h (cb_snap_vert_inv _ _ _ _ _ h)))
  · exact cb_snap_vert_inv _ _ _ _ _
      (ite_snapInv _ _ _ _
        (ite_snapInv _ _ _ _ h (cb_snap_vert_inv _ _ _ _ _ h))
        (cb_snap_vert_inv _ _ _ _ _
          (ite_snapInv _ _ _ _ h (cb_snap_vert_inv _ _ _ _ _ h))))

/-- `cbTriEdgeStep` preserves the search invariant. -/
theorem cbTriEdgeStep_inv (env : MeshSnapEnv) (m : MeshData) (e : Int)
    (t0 : ℚ) (s : SnapState) (h : SnapInv t0 s) :
    SnapInv t0 (cbTriEdgeStep env m e s) := by
  unfold cbTriEdgeStep
  split
  case isTrue he =>
    split
    · exact h
    · exact cb_snap_edge_inv _ _ _ he _ _ h
  case isFalse _ => exact h

/-- `cb_snap_tri_edges` preserves the search invariant. -/
theorem cb_snap_tri_edges_inv (env : MeshSnapEnv) (m : MeshData) (bfc : Bool)
    (index : Nat) (t0 : ℚ) (s : SnapState) (h : SnapInv t0 s) :
    SnapInv t0 (cb_snap_tri_edges env m bfc index s) := by
  simp only [cb_snap_tri_edges]
  apply ite_snapInv _ _ _ _ h
  exact cbTriEdgeStep_inv _ _ _ _ _
    (cbTriEdgeStep_inv _ _ _ _ _ (cbTriEdgeStep_inv _ _ _ _ _ h))

/-- A BVH projected search preserves any property each callback invocation
preserves. -/
theorem bvhFindNearestProjected_inv (tree : List Nat)
    (cb : Nat → SnapState → SnapState) (t0 : ℚ)
    (hcb : ∀ i s, SnapInv t0 s → SnapInv t0 (cb i s)) :
    ∀ s, SnapInv t0 s → SnapInv t0 (bvhFindNearestProjected tree cb s) := by
  induction tree with
  | nil => exact fun s h => h
  | cons a l ih => exact fun s h => ih _ (hcb a s h)

/-- The fresh search state satisfies the invariant. -/
theorem initSnapState_inv (t0 : ℚ) : SnapInv t0 (initSnapState t0) := by
  refine ⟨le_refl _, fun _ => rfl, fun hc => absurd rfl hc, ?_, ?_, ?_⟩ <;>
    simp [initSnapState]

/-- The loose-vertex phase of `snapMesh` preserves the invariant. -/
theorem snapMeshLooseVertPhase_inv (env : MeshSnapEnv) (m : MeshData)
    (bvh1 : Option (List Nat)) (t0 : ℚ) (s0 : SnapState) (h : SnapInv t0 s0) :
    SnapInv t0 (snapMeshLooseVertPhase env m bvh1 s0).1 := by
  unfold snapMeshLooseVertPhase
  cases bvh1 with
  | none => exact h
  | some l =>
    exact bvhFindNearestProjected_inv l _ t0
      (fun i s hs => cb_snap_vert_inv env m i t0 s hs) s0 h

/-- The edge phase of `snapMesh` preserves the invariant. -/
theorem snapMeshEdgePhase_inv (env : MeshSnapEnv) (m : MeshData) (ubfc : Bool)
    (bvh0 tritree : Option (List Nat)) (t0 : ℚ) (p : SnapState × List SnapMode)
    (h : SnapInv t0 p.1) : SnapInv t0 (snapMeshEdgePhase env m ubfc bvh0 tritree p).1 := by
  unfold snapMeshEdgePhase
  cases bvh0 with
  | none =>
    cases tritree with
    | none => exact h
    | some l =>
      exact bvhFindNearestProjected_inv l _ t0
        (fun i s hs => cb_snap_tri_edges_inv env m ubfc i t0 s hs) _ h
  | some l0 =>
    cases tritree with
    | none =>
      exact bvhFindNearestProjected_inv l0 _ t0
        (fun i s hs => cb_snap_edge_inv env m (Int.ofNat i) (intOfNat_ne_negOne i) t0 s hs) _ h
    | some l =>
      exact bvhFindNearestProjected_inv l _ t0
        (fun i s hs => cb_snap_tri_edges_inv env m ubfc i t0 s hs) _
        (bvhFindNearestProjected_inv l0 _ t0
          (fun i s hs => cb_snap_edge_inv env m (Int.ofNat i) (intOfNat_ne_negOne i) t0 s hs) _ h)

/-- The vertex-only phase of `snapMesh` preserves the invariant. -/
theorem snapMeshVertPhase_inv (env : MeshSnapEnv) (m : MeshData) (ubfc : Bool)
    (bvh0 tritree : Option (List Nat)) (t0 : ℚ) (p : SnapState × List SnapMode)
    (h : SnapInv t0 p.1) : SnapInv t0 (snapMeshVertPhase env m ubfc bvh0 tritree p).1 := by
  unfold snapMeshVertPhase
  cases bvh0 with
  | none =>
    cases tritree with
    | none => exact h
    | some l =>
      exact bvhFindNearestProjected_inv l _ t0
        (fun i s hs => cb_snap_tri_verts_inv env m ubfc i t0 s hs) _ h
  | some l0 =>
    cases tritree with
    | none =>
      exact bvhFindNearestProjected_inv l0 _ t0
        (fun i s hs => cb_snap_edge_verts_inv env m i t0 s hs) _ h
    | some l =>
      exact bvhFindNearestProjected_inv l _ t0
        (fun i s hs => cb_snap_tri_verts_inv env m ubfc i t0 s hs) _
        (bvhFindNearestProjected_inv l0 _ t0
          (fun i s hs => cb_snap_edge_verts_inv env m i t0 s hs) _ h)

/-- The state produced by the search part of `snapMesh` satisfies the
invariant. -/
theorem snapMeshSearch_inv (env : MeshSnapEnv) (sctx : SnapCtx) (m : MeshData) :
    SnapInv sctx.ret.dist_px_sq (snapMeshSearch env sctx m).1 := by
  have h0 := initSnapState_inv sctx.ret.dist_px_sq
  simp only [snapMeshSearch]
  by_cases hE : sctx.snap_to_flag.toEdge = true
  · rw [if_pos hE]
    exact snapMeshEdgePhase_inv _ _ _ _ _ _ _
      (snapMeshLooseVertPhase_inv _ _ _ _ _ h0)
  · rw [if_neg hE]
    exact snapMeshVertPhase_inv _ _ _ _ _ _ _
      (snapMeshLooseVertPhase_inv _ _ _ _ _ h0)

/-- The `elem` value of the `snapMesh` search is `SCE_SNAP_TO_EDGE` or
`SCE_SNAP_TO_VERTEX`. -/
theorem snapMeshSearch_elem_range (env : MeshSnapEnv) (sctx : SnapCtx)
    (m : MeshData) :
    (snapMeshSearch env sctx m).2.2 = SCE_SNAP_TO_EDGE ∨
    (snapMeshSearch env sctx m).2.2 = SCE_SNAP_TO_VERTEX := by
  simp only [snapMeshSearch]
  repeat' split
  all_goals first
    | exact Or.inl rfl
    | exact Or.inr rfl

/-- The final search state of `snapMesh` satisfies the invariant with
threshold `sctx->ret.dist_px_sq`. -/
theorem snapMesh_inv (env : MeshSnapEnv) (sctx : SnapCtx) (m : MeshData) :
    SnapInv sctx.ret.dist_px_sq (snapMesh env sctx m).2.1 := by
  have h0 := initSnapState_inv sctx.ret.dist_px_sq
  have hs := snapMeshSearch_inv env sctx m
  simp only [snapMesh]
  repeat' split
  all_goals first
    | exact h0
    | exact hs

/-- `snapMesh` reports a non-`SCE_SNAP_TO_NONE` mode exactly when the final
search state holds an accepted candidate (`nearest.index != -1`). -/
theorem snapMesh_mode_iff (env : MeshSnapEnv) (sctx : SnapCtx) (m : MeshData) :
    ((snapMesh env sctx m).1 ≠ SCE_SNAP_TO_NONE ↔
      (snapMesh env sctx m).2.1.nearest.index ≠ -1) := by
  have hrange := snapMeshSearch_elem_range env sctx m
  simp only [snapMesh]
  repeat' split
  all_goals try simp [initSnapState, SCE_SNAP_TO_NONE]
  all_goals
    rcases hrange with hr | hr <;>
      simp_all [SCE_SNAP_TO_EDGE, SCE_SNAP_TO_VERTEX, SCE_SNAP_TO_NONE]

/-- C1: for every `snapMesh` call with vertex or edge snapping requested,
the search starts from the threshold `sctx->ret.dist_px_sq`: the final
`dist_sq` never exceeds it, the whole history of `dist_sq` values during
the search is non-increasing (the `hist` ghost log is newest first, so read
right-to-left it is the threshold followed by the successive `dist_sq`
values), a non-`SCE_SNAP_TO_NONE` result is returned iff
`nearest.index != -1` iff some tested candidate fell strictly inside the
threshold, and on success the stored `nearest_point` is a tested candidate
whose squared projected distance is minimal among all candidates tested. -/
theorem snapMesh_nearest_spec (env : MeshSnapEnv) (sctx : SnapCtx) (m : MeshData)
    (_hreq : sctx.snap_to_flag.toVertex = true ∨ sctx.snap_to_flag.toEdge = true) :
    (snapMesh env sctx m).2.1.nearest.dist_sq ≤ sctx.ret.dist_px_sq ∧
    List.Chain' (· ≤ ·) ((snapMesh env sctx m).2.1.hist ++ [sctx.ret.dist_px_sq]) ∧
    ((snapMesh env sctx m).1 ≠ SCE_SNAP_TO_NONE ↔
      (snapMesh env sctx m).2.1.nearest.index ≠ -1) ∧
    ((snapMesh env sctx m).1 ≠ SCE_SNAP_TO_NONE ↔
      ∃ p ∈ (snapMesh env sctx m).2.1.tested, p.1 < sctx.ret.dist_px_sq) ∧
    ((snapMesh env sctx m).2.1.nearest.index ≠ -1 →
      (∃ p ∈ (snapMesh env sctx m).2.1.tested,
        p.2 = (snapMesh env sctx m).2.1.nearest.index ∧
        p.1 = (snapMesh env sctx m).2.1.nearest.dist_sq) ∧
      ∀ p ∈ (snapMesh env sctx m).2.1.tested,
        (snapMesh env sctx m).2.1.nearest.dist_sq ≤ p.1) := by
  obtain ⟨h1, h2, h3, h4, h5, _⟩ := snapMesh_inv env sctx m
  have hiff := snapMesh_mode_iff env sctx m
  refine ⟨h1, h5, hiff, ?_, ?_⟩
  · rw [hiff]
    constructor
    · intro hidx
      obtain ⟨hlt, p, hp, _, hpd⟩ := h3 hidx
      exact ⟨p, hp, by rw [hpd]; exact hlt⟩
    · rintro ⟨p, hp, hplt⟩ hidx
      have ht0 := h2 hidx
      have := h4 p hp
      rw [ht0] at this
      exact absurd hplt (not_lt.mpr this)
  · intro hidx
    exact ⟨(h3 hidx).2, h4⟩

/-- Witness for C1: on the two-vertex fixture, vertex snapping is requested
and the theorem's conclusion holds at that concrete input. -/
theorem snapMesh_nearest_spec_witness :
    (sctxW1.snap_to_flag.toVertex = true ∨ sctxW1.snap_to_flag.toEdge = true) ∧
    ((snapMesh envW1 sctxW1 mW1).2.1.nearest.dist_sq ≤ sctxW1.ret.dist_px_sq ∧
    List.Chain' (· ≤ ·) ((snapMesh envW1 sctxW1 mW1).2.1.hist ++ [sctxW1.ret.dist_px_sq]) ∧
    ((snapMesh envW1 sctxW1 mW1).1 ≠ SCE_SNAP_TO_NONE ↔
      (snapMesh envW1 sctxW1 mW1).2.1.nearest.index ≠ -1) ∧
    ((snapMesh envW1 sctxW1 mW1).1 ≠ SCE_SNAP_TO_NONE ↔
      ∃ p ∈ (snapMesh envW1 sctxW1 mW1).2.1.tested, p.1 < sctxW1.ret.dist_px_sq) ∧
    ((snapMesh envW1 sctxW1 mW1).2.1.nearest.index ≠ -1 →
      (∃ p ∈ (snapMesh envW1 sctxW1 mW1).2.1.tested,
        p.2 = (snapMesh envW1 sctxW1 mW1).2.1.nearest.index ∧
        p.1 = (snapMesh envW1 sctxW1 mW1).2.1.nearest.dist_sq) ∧
      ∀ p ∈ (snapMesh envW1 sctxW1 mW1).2.1.tested,
        (snapMesh envW1 sctxW1 mW1).2.1.nearest.dist_sq ≤ p.1)) :=
  ⟨Or.inl rfl, snapMesh_nearest_spec envW1 sctxW1 mW1 (Or.inl rfl)⟩

/-- Witness for C6 at three empty input stacks. -/
theorem node_shader_gpu_shader_test_spec_witness :
    2 < ([{}, {}, {}] : List GPUNodeStack).length ∧
    (((([{}, {}, {}] : List GPUNodeStack).getD 2 {}).link = none →
      (∃ lid : Nat,
        ((node_shader_gpu_shader_test 1 {} [{}, {}, {}]).2.1.getD 2 {}).link =
          some lid) ∧
      "world_normals_get" ∈ (node_shader_gpu_shader_test 1 {} [{}, {}, {}]).1.linked) ∧
    ((([{}, {}, {}] : List GPUNodeStack).getD 2 {}).link ≠ none →
      (node_shader_gpu_shader_test 1 {} [{}, {}, {}]).2.1 = [{}, {}, {}]) ∧
    ((node_shader_gpu_shader_test 1 {} [{}, {}, {}]).1.flags &&& GPU_MATFLAG_DIFFUSE =
      GPU_MATFLAG_DIFFUSE) ∧
    (node_shader_gpu_shader_test 1 {} [{}, {}, {}]).2.2 = 1 ∧
    (node_shader_gpu_shader_test 1 {} [{}, {}, {}]).1.linked.getLast? =
      some "node_shader_test") :=
  ⟨by norm_num, node_shader_gpu_shader_test_spec 1 {} [{}, {}, {}] (by norm_num)⟩

/-- C2: in single-hit mode (`hit_list == nullptr`), once the early exits do
not trigger (non-empty polygons, bound box not missed, looptri tree
present), `raycastMesh` returns `true` iff the BVH ray cast reports a hit
whose distance, after re-adding `len_diff` and rescaling by `local_scale`,
is at most `sctx->ret.ray_depth_max`; on success `ret.loc` and `ret.no` are
the hit point and normal transformed to world space, `ret.index` is
`looptri_polys[hit.index]`, and `ret.ray_depth_max` becomes the rescaled
hit distance, hence never increases; on failure the context is unchanged. -/
theorem raycastMesh_single_hit (env : MeshSnapEnv) (sctx : SnapCtx)
    (m : MeshData) (hpoly : m.totpoly ≠ 0)
    (hbb : env.bb_raycast ≠ BBoxOutcome.miss)
    (htree : env.looptriTree ≠ none) (hlist : sctx.hit_list = false) :
    ((raycastMesh env sctx m).1 = true ↔ ∃ h : RawHit, env.bvh_hit = some h ∧
      (h.dist + raycastLenDiff env sctx) / raycastLocalScale env sctx ≤
        sctx.ret.ray_depth_max) ∧
    (∀ h : RawHit, env.bvh_hit = some h →
      (h.dist + raycastLenDiff env sctx) / raycastLocalScale env sctx ≤
        sctx.ret.ray_depth_max →
      (raycastMesh env sctx m).2.ret.loc = env.obmat_point h.co ∧
      (raycastMesh env sctx m).2.ret.no =
        env.normalize3 (env.imat_transposed_dir h.no) ∧
      (raycastMesh env sctx m).2.ret.index =
        Int.ofNat (m.looptri_polys.getD h.index 0) ∧
      (raycastMesh env sctx m).2.ret.ray_depth_max =
        (h.dist + raycastLenDiff env sctx) / raycastLocalScale env sctx) ∧
    ((raycastMesh env sctx m).1 = true →
      (raycastMesh env sctx m).2.ret.ray_depth_max ≤ sctx.ret.ray_depth_max) ∧
    ((raycastMesh env sctx m).1 = false → (raycastMesh env sctx m).2 = sctx) := by
  rcases ht : env.looptriTree with _ | tl
  · exact absurd ht htree
  rcases hb : env.bb_raycast with _ | _ | l
  · rcases hh : env.bvh_hit with _ | h
    · simp [raycastMesh, hpoly, hb, ht, hlist, hh]
    · by_cases hd : (h.dist + raycastLenDiff env sctx) /
          raycastLocalScale env sctx ≤ sctx.ret.ray_depth_max
      · simp [raycastMesh, hpoly, hb, ht, hlist, hh, hd]
      · simp [raycastMesh, hpoly, hb, ht, hlist, hh, hd]
  · exact absurd hb hbb
  · rcases hh : env.bvh_hit with _ | h
    · simp [raycastMesh, hpoly, hb, ht, hlist, hh]
    · by_cases hd : (h.dist + raycastLenDiff env sctx) /
          raycastLocalScale env sctx ≤ sctx.ret.ray_depth_max
      · simp [raycastMesh, hpoly, hb, ht, hlist, hh, hd]
      · simp [raycastMesh, hpoly, hb, ht, hlist, hh, hd]

/-- Witness for C2 on the one-triangle fixture with a BVH hit at distance
1/2 within depth budget 1. -/
theorem raycastMesh_single_hit_witness :
    (mW2.totpoly ≠ 0 ∧ envW2.bb_raycast ≠ BBoxOutcome.miss ∧
     envW2.looptriTree ≠ none ∧ sctxW2.hit_list = false) ∧
    (((raycastMesh envW2 sctxW2 mW2).1 = true ↔ ∃ h : RawHit,
        envW2.bvh_hit = some h ∧
        (h.dist + raycastLenDiff envW2 sctxW2) / raycastLocalScale envW2 sctxW2 ≤
          sctxW2.ret.ray_depth_max) ∧
    (∀ h : RawHit, envW2.bvh_hit = some h →
      (h.dist + raycastLenDiff envW2 sctxW2) / raycastLocalScale envW2 sctxW2 ≤
        sctxW2.ret.ray_depth_max →
      (raycastMesh envW2 sctxW2 mW2).2.ret.loc = envW2.obmat_point h.co ∧
      (raycastMesh envW2 sctxW2 mW2).2.ret.no =
        envW2.normalize3 (envW2.imat_transposed_dir h.no) ∧
      (raycastMesh envW2 sctxW2 mW2).2.ret.index =
        Int.ofNat (mW2.looptri_polys.getD h.index 0) ∧
      (raycastMesh envW2 sctxW2 mW2).2.ret.ray_depth_max =
        (h.dist + raycastLenDiff envW2 sctxW2) / raycastLocalScale envW2 sctxW2) ∧
    ((raycastMesh envW2 sctxW2 mW2).1 = true →
      (raycastMesh envW2 sctxW2 mW2).2.ret.ray_depth_max ≤
        sctxW2.ret.ray_depth_max) ∧
    ((raycastMesh envW2 sctxW2 mW2).1 = false →
      (raycastMesh envW2 sctxW2 mW2).2 = sctxW2)) :=
  ⟨⟨by simp [mW2], by simp [envW2], by simp [envW2], rfl⟩,
   raycastMesh_single_hit envW2 sctxW2 mW2 (by simp [mW2]) (by simp [envW2])
     (by simp [envW2]) rfl⟩

/-- `snapMesh` only ever reports `SCE_SNAP_TO_VERTEX`, `SCE_SNAP_TO_EDGE`
or `SCE_SNAP_TO_NONE`. -/
theorem snapMesh_elem_range (env : MeshSnapEnv) (sctx : SnapCtx) (m : MeshData) :
    (snapMesh env sctx m).1 = SCE_SNAP_TO_VERTEX ∨
    (snapMesh env sctx m).1 = SCE_SNAP_TO_EDGE ∨
    (snapMesh env sctx m).1 = SCE_SNAP_TO_NONE := by
  have hrange := snapMeshSearch_elem_range env sctx m
  simp only [snapMesh]
  repeat' split
  all_goals first
    | exact Or.inr (Or.inr rfl)
    | (rcases hrange with hr | hr
       · exact Or.inr (Or.inl hr)
       · exact Or.inl hr)

/-- C3: `snap_object_mesh` tries the snap stages in the fixed fallback
order vertex/edge (`snapMesh`), then face ray cast (`raycastMesh`), then
nearest world surface (`nearest_world_mesh`); the first stage that succeeds
determines the result, and the return value is always one of
`SCE_SNAP_TO_VERTEX`, `SCE_SNAP_TO_EDGE`, `SCE_SNAP_TO_FACE`,
`SCE_SNAP_INDIVIDUAL_NEAREST` or `SCE_SNAP_TO_NONE`. -/
theorem snap_object_mesh_fallback (env : MeshSnapEnv) (sctx : SnapCtx)
    (m : MeshData) (flags : SnapMode) :
    ((snap_object_mesh env sctx m flags).1 = SCE_SNAP_TO_VERTEX ∨
     (snap_object_mesh env sctx m flags).1 = SCE_SNAP_TO_EDGE ∨
     (snap_object_mesh env sctx m flags).1 = SCE_SNAP_TO_FACE ∨
     (snap_object_mesh env sctx m flags).1 = SCE_SNAP_INDIVIDUAL_NEAREST ∨
     (snap_object_mesh env sctx m flags).1 = SCE_SNAP_TO_NONE) ∧
    ((flags.and (mesh_snap_mode_supported m)).hasAny snapEdgeVertMask = true →
      (snapMesh env sctx m).1 ≠ SCE_SNAP_TO_NONE →
      (snap_object_mesh env sctx m flags).1 = (snapMesh env sctx m).1) ∧
    (((flags.and (mesh_snap_mode_supported m)).hasAny snapEdgeVertMask = false ∨
      (snapMesh env sctx m).1 = SCE_SNAP_TO_NONE) →
      (flags.and (mesh_snap_mode_supported m)).toFace = true →
      (raycastMesh env {sctx with object_index := sctx.object_index + 1} m).1 = true →
      (snap_object_mesh env sctx m flags).1 = SCE_SNAP_TO_FACE) ∧
    (((flags.and (mesh_snap_mode_supported m)).hasAny snapEdgeVertMask = false ∨
      (snapMesh env sctx m).1 = SCE_SNAP_TO_NONE) →
      ((flags.and (mesh_snap_mode_supported m)).toFace = false ∨
       (raycastMesh env {sctx with object_index := sctx.object_index + 1} m).1 = false) →
      (flags.and (mesh_snap_mode_supported m)).individualNearest = true →
      nearest_world_mesh env m = true →
      (snap_object_mesh env sctx m flags).1 = SCE_SNAP_INDIVIDUAL_NEAREST) ∧
    (((flags.and (mesh_snap_mode_supported m)).hasAny snapEdgeVertMask = false ∨
      (snapMesh env sctx m).1 = SCE_SNAP_TO_NONE) →
      ((flags.and (mesh_snap_mode_supported m)).toFace = false ∨
       (raycastMesh env {sctx with object_index := sctx.object_index + 1} m).1 = false) →
      ((flags.and (mesh_snap_mode_supported m)).individualNearest = false ∨
       nearest_world_mesh env m = false) →
      (snap_object_mesh env sctx m flags).1 = SCE_SNAP_TO_NONE) := by
  have hrange := snapMesh_elem_range env sctx m
  refine ⟨?_, ?_, ?_, ?_, ?_⟩
  · have hwr : ∀ (sc : SnapCtx) (log : List SnapMode),
        (snapObjectMeshRaycastStage env sc m
          (flags.and (mesh_snap_mode_supported m)) log).1 = SCE_SNAP_TO_FACE ∨
        (snapObjectMeshRaycastStage env sc m
          (flags.and (mesh_snap_mode_supported m)) log).1 =
            SCE_SNAP_INDIVIDUAL_NEAREST ∨
        (snapObjectMeshRaycastStage env sc m
          (flags.and (mesh_snap_mode_supported m)) log).1 = SCE_SNAP_TO_NONE := by
      intro sc log
      by_cases hface : (flags.and (mesh_snap_mode_supported m)).toFace = true <;>
      by_cases hrc : (raycastMesh env
        {sc with object_index := sc.object_index + 1} m).1 = true <;>
      by_cases hind : (flags.and
        (mesh_snap_mode_supported m)).individualNearest = true <;>
      by_cases hnw : nearest_world_mesh env m = true <;>
        simp [snapObjectMeshRaycastStage, snapObjectMeshWorldStage,
          hface, hrc, hind, hnw]
    by_cases hg : (flags.and (mesh_snap_mode_supported m)).hasAny
        snapEdgeVertMask = true
    · by_cases hne : (snapMesh env sctx m).1 = SCE_SNAP_TO_NONE
      · have := hwr sctx (snapMesh env sctx m).2.2
        simp only [snap_object_mesh, hg, hne, if_true]
        simp [hne]
        tauto
      · simp only [snap_object_mesh, hg, if_true]
        simp [hne]
        tauto
    · have := hwr sctx []
      simp only [snap_object_mesh, hg]
      simp
      tauto
  · intro hg hne
    simp [snap_object_mesh, hg, hne]
  · intro hfail hface hray
    have htail : ∀ log : List SnapMode,
        (snapObjectMeshRaycastStage env sctx m
          (flags.and (mesh_snap_mode_supported m)) log).1 = SCE_SNAP_TO_FACE := by
      intro log
      simp [snapObjectMeshRaycastStage, hface, hray]
    rcases hfail with hg | hne
    · simp [snap_object_mesh, hg, htail]
    · by_cases hg : (flags.and (mesh_snap_mode_supported m)).hasAny
          snapEdgeVertMask = true
      · simp [snap_object_mesh, hg, hne, htail]
      · simp [snap_object_mesh, hg, htail]
  · intro hfail hrayfail hind hnw
    have htail : ∀ log : List SnapMode,
        (snapObjectMeshRaycastStage env sctx m
          (flags.and (mesh_snap_mode_supported m)) log).1 =
          SCE_SNAP_INDIVIDUAL_NEAREST := by
      intro log
      by_cases hface : (flags.and (mesh_snap_mode_supported m)).toFace = true
      · rcases hrayfail with hf | hray
        · rw [hface] at hf
          exact absurd hf (by simp)
        · simp [snapObjectMeshRaycastStage, hface, hray,
            snapObjectMeshWorldStage, hind, hnw]
      · simp [snapObjectMeshRaycastStage, hface,
          snapObjectMeshWorldStage, hind, hnw]
    rcases hfail with hg | hne
    · simp [snap_object_mesh, hg, htail]
    · by_cases hg : (flags.and (mesh_snap_mode_supported m)).hasAny
          snapEdgeVertMask = true
      · simp [snap_object_mesh, hg, hne, htail]
      · simp [snap_object_mesh, hg, htail]
  · intro hfail hrayfail hworldfail
    have hw : ∀ (sc : SnapCtx) (log2 : List SnapMode),
        (snapObjectMeshWorldStage env sc m
          (flags.and (mesh_snap_mode_supported m)) log2).1 = SCE_SNAP_TO_NONE := by
      intro sc log2
      rcases hworldfail with hi | hnw
      · simp [snapObjectMeshWorldStage, hi]
      · by_cases hi : (flags.and (mesh_snap_mode_supported m)).individualNearest = true
        · simp [snapObjectMeshWorldStage, hi, hnw]
        · simp [snapObjectMeshWorldStage, hi]
    have htail : ∀ log : List SnapMode,
        (snapObjectMeshRaycastStage env sctx m
          (flags.and (mesh_snap_mode_supported m)) log).1 = SCE_SNAP_TO_NONE := by
      intro log
      by_cases hface : (flags.and (mesh_snap_mode_supported m)).toFace = true
      · rcases hrayfail with hf | hray
        · rw [hface] at hf
          exact absurd hf (by simp)
        · simp [snapObjectMeshRaycastStage, hface, hray, hw]
      · simp [snapObjectMeshRaycastStage, hface, hw]
    rcases hfail with hg | hne
    · simp [snap_object_mesh, hg, htail]
    · by_cases hg : (flags.and (mesh_snap_mode_supported m)).hasAny
          snapEdgeVertMask = true
      · simp [snap_object_mesh, hg, hne, htail]
      · simp [snap_object_mesh, hg, htail]

/-- `SCE_SNAP_TO_VERTEX` is a subset of `b` iff `b` has the vertex flag. -/
theorem subsetOf_vertex (b : SnapMode) :
    SCE_SNAP_TO_VERTEX.subsetOf b = true ↔ b.toVertex = true := by
  obtain ⟨v, e, f, md, pp, i⟩ := b
  simp [SnapMode.subsetOf, SnapMode.and, SCE_SNAP_TO_VERTEX]

/-- `SCE_SNAP_TO_EDGE` is a subset of `b` iff `b` has the edge flag. -/
theorem subsetOf_edge (b : SnapMode) :
    SCE_SNAP_TO_EDGE.subsetOf b = true ↔ b.toEdge = true := by
  obtain ⟨v, e, f, md, pp, i⟩ := b
  simp [SnapMode.subsetOf, SnapMode.and, SCE_SNAP_TO_EDGE]

/-- `SCE_SNAP_TO_FACE` is a subset of `b` iff `b` has the face flag. -/
theorem subsetOf_face (b : SnapMode) :
    SCE_SNAP_TO_FACE.subsetOf b = true ↔ b.toFace = true := by
  obtain ⟨v, e, f, md, pp, i⟩ := b
  simp [SnapMode.subsetOf, SnapMode.and, SCE_SNAP_TO_FACE]

/-- `SCE_SNAP_INDIVIDUAL_NEAREST` is a subset of `b` iff `b` has the
individual-nearest flag. -/
theorem subsetOf_individual (b : SnapMode) :
    SCE_SNAP_INDIVIDUAL_NEAREST.subsetOf b = true ↔ b.individualNearest = true := by
  obtain ⟨v, e, f, md, pp, i⟩ := b
  simp [SnapMode.subsetOf, SnapMode.and, SCE_SNAP_INDIVIDUAL_NEAREST]

/-- Field-level characterization of `mesh_snap_mode_supported`. -/
theorem mesh_snap_mode_supported_spec (m : MeshData) :
    ((mesh_snap_mode_supported m).toFace = true ↔ m.totpoly ≠ 0) ∧
    ((mesh_snap_mode_supported m).individualNearest = true ↔ m.totpoly ≠ 0) ∧
    ((mesh_snap_mode_supported m).toEdge = true ↔ m.totedge ≠ 0) ∧
    ((mesh_snap_mode_supported m).toEdgeMidpoint = true ↔ m.totedge ≠ 0) ∧
    ((mesh_snap_mode_supported m).toEdgePerpendicular = true ↔ m.totedge ≠ 0) ∧
    ((mesh_snap_mode_supported m).toVertex = true ↔ m.totvert ≠ 0) := by
  unfold mesh_snap_mode_supported
  by_cases hp : m.totpoly ≠ 0 <;> by_cases he : m.totedge ≠ 0 <;>
    by_cases hv : m.totvert ≠ 0 <;>
    simp [hp, he, hv, SnapMode.or, SCE_SNAP_TO_NONE, SCE_SNAP_TO_FACE,
      SCE_SNAP_INDIVIDUAL_NEAREST, SCE_SNAP_TO_EDGE, SCE_SNAP_TO_EDGE_MIDPOINT,
      SCE_SNAP_TO_EDGE_PERPENDICULAR, SCE_SNAP_TO_VERTEX]

/-- Every mode the loose-vertex phase logs is `SCE_SNAP_TO_VERTEX`, and only
when its tree exists. -/
theorem snapMeshLooseVertPhase_log (env : MeshSnapEnv) (m : MeshData)
    (bvh1 : Option (List Nat)) (s0 : SnapState) :
    ∀ mo ∈ (snapMeshLooseVertPhase env m bvh1 s0).2,
      mo = SCE_SNAP_TO_VERTEX ∧ bvh1 ≠ none := by
  unfold snapMeshLooseVertPhase
  cases bvh1 <;> simp

/-- Every mode the edge phase adds to the log is `SCE_SNAP_TO_EDGE`, and only
when one of its trees exists. -/
theorem snapMeshEdgePhase_log (env : MeshSnapEnv) (m : MeshData) (ubfc : Bool)
    (bvh0 tritree : Option (List Nat)) (p : SnapState × List SnapMode) :
    ∀ mo ∈ (snapMeshEdgePhase env m ubfc bvh0 tritree p).2,
      mo ∈ p.2 ∨ (mo = SCE_SNAP_TO_EDGE ∧ (bvh0 ≠ none ∨ tritree ≠ none)) := by
  unfold snapMeshEdgePhase
  cases bvh0 <;> cases tritree <;> simp

/-- Every mode the vertex-only phase adds to the log is
`SCE_SNAP_TO_VERTEX`, and only when one of its trees exists. -/
theorem snapMeshVertPhase_log (env : MeshSnapEnv) (m : MeshData) (ubfc : Bool)
    (bvh0 tritree : Option (List Nat)) (p : SnapState × List SnapMode) :
    ∀ mo ∈ (snapMeshVertPhase env m ubfc bvh0 tritree p).2,
      mo ∈ p.2 ∨ (mo = SCE_SNAP_TO_VERTEX ∧ (bvh0 ≠ none ∨ tritree ≠ none)) := by
  unfold snapMeshVertPhase
  cases bvh0 <;> cases tritree <;> simp

/-- Where each entry of the `snapMesh` search log can come from: a vertex
search (loose-verts tree with the vertex flag, or the vertex-only branch
with one of its trees), or an edge search (edge flag with one of its
trees). -/
theorem snapMeshSearch_log (env : MeshSnapEnv) (sctx : SnapCtx) (m : MeshData) :
    ∀ mo ∈ (snapMeshSearch env sctx m).2.1,
      (mo = SCE_SNAP_TO_VERTEX ∧
        ((sctx.snap_to_flag.toVertex = true ∧ env.looseVertTree ≠ none) ∨
         (sctx.snap_to_flag.toEdge ≠ true ∧
           (env.looseEdgeTree ≠ none ∨ env.looptriTree ≠ none)))) ∨
      (mo = SCE_SNAP_TO_EDGE ∧ sctx.snap_to_flag.toEdge = true ∧
        (env.looseEdgeTree ≠ none ∨ env.looptriTree ≠ none)) := by
  intro mo hmo
  unfold snapMeshSearch at hmo
  by_cases hE : sctx.snap_to_flag.toEdge = true
  · rw [if_pos hE] at hmo
    rcases snapMeshEdgePhase_log _ _ _ _ _ _ mo hmo with hIn | ⟨rfl, ht⟩
    · rcases snapMeshLooseVertPhase_log _ _ _ _ mo hIn with ⟨rfl, hb1⟩
      left
      refine ⟨rfl, Or.inl ?_⟩
      by_cases hV : sctx.snap_to_flag.toVertex = true
      · exact ⟨hV, by simpa [hV] using hb1⟩
      · rw [if_neg hV] at hb1
        exact absurd rfl hb1
    · exact Or.inr ⟨rfl, hE, ht⟩
  · rw [if_neg hE] at hmo
    rcases snapMeshVertPhase_log _ _ _ _ _ _ mo hmo with hIn | ⟨rfl, ht⟩
    · rcases snapMeshLooseVertPhase_log _ _ _ _ mo hIn with ⟨rfl, hb1⟩
      left
      refine ⟨rfl, Or.inl ?_⟩
      by_cases hV : sctx.snap_to_flag.toVertex = true
      · exact ⟨hV, by simpa [hV] using hb1⟩
      · rw [if_neg hV] at hb1
        exact absurd rfl hb1
    · exact Or.inl ⟨rfl, Or.inr ⟨hE, ht⟩⟩

/-- The `snapMesh` log is empty (early return) or the search log. -/
theorem snapMesh_log_cases (env : MeshSnapEnv) (sctx : SnapCtx) (m : MeshData) :
    (snapMesh env sctx m).2.2 = [] ∨
    (snapMesh env sctx m).2.2 = (snapMeshSearch env sctx m).2.1 := by
  unfold snapMesh
  repeat' split
  all_goals try simp
  all_goals split <;> simp

/-- Under a well-formed mesh, matching runtime flags, and BVH trees that
exist only for present geometry, every snap mode `snapMesh` attempts lies in
the intersection of the requested flags and the supported set. -/
theorem snapMesh_log_subset (env : MeshSnapEnv) (sctx : SnapCtx) (m : MeshData)
    (flags : SnapMode) (hflag : sctx.snap_to_flag = flags)
    (hVorE : flags.toVertex = true ∨ flags.toEdge = true)
    (hle : env.looseEdgeTree ≠ none → m.totedge ≠ 0)
    (hlv : env.looseVertTree ≠ none → m.totvert ≠ 0)
    (hlt : env.looptriTree ≠ none → m.totpoly ≠ 0)
    (hwf1 : m.totpoly ≠ 0 → m.totedge ≠ 0)
    (hwf2 : m.totedge ≠ 0 → m.totvert ≠ 0) :
    ∀ mo ∈ (snapMesh env sctx m).2.2,
      mo.subsetOf (flags.and (mesh_snap_mode_supported m)) = true := by
  obtain ⟨hsF, hsI, hsE, hsM, hsP, hsV⟩ := mesh_snap_mode_supported_spec m
  intro mo hmo
  rcases snapMesh_log_cases env sctx m with hr | hr
  · rw [hr] at hmo
    simp at hmo
  · rw [hr] at hmo
    rcases snapMeshSearch_log env sctx m mo hmo with ⟨rfl, hcase⟩ | ⟨rfl, hE, ht⟩
    · rw [subsetOf_vertex]
      have hv : flags.toVertex = true := by
        rcases hcase with ⟨hV, _⟩ | ⟨hnE, _⟩
        · rw [← hflag]
          exact hV
        · rcases hVorE with h | h
          · exact h
          · rw [← hflag] at h
            exact absurd h hnE
      have hvert : m.totvert ≠ 0 := by
        rcases hcase with ⟨_, htree⟩ | ⟨_, htree⟩
        · exact hlv htree
        · rcases htree with h | h
          · exact hwf2 (hle h)
          · exact hwf2 (hwf1 (hlt h))
      show (flags.and (mesh_snap_mode_supported m)).toVertex = true
      simp [SnapMode.and, hv, hsV.mpr hvert]
    · rw [subsetOf_edge]
      have he : flags.toEdge = true := by
        rw [← hflag]
        exact hE
      have hedge : m.totedge ≠ 0 := by
        rcases ht with h | h
        · exact hle h
        · exact hwf1 (hlt h)
      show (flags.and (mesh_snap_mode_supported m)).toEdge = true
      simp [SnapMode.and, he, hsE.mpr hedge]

/-- The world stage only adds `SCE_SNAP_INDIVIDUAL_NEAREST` to the log, and
only when that mode is in the used set. -/
theorem snapObjectMeshWorldStage_log (env : MeshSnapEnv) (sc : SnapCtx)
    (m : MeshData) (used : SnapMode) (log : List SnapMode) :
    ∀ mo ∈ (snapObjectMeshWorldStage env sc m used log).2.2,
      mo ∈ log ∨
      (mo = SCE_SNAP_INDIVIDUAL_NEAREST ∧ used.individualNearest = true) := by
  unfold snapObjectMeshWorldStage
  by_cases hi : used.individualNearest = true <;>
    by_cases hn : nearest_world_mesh env m = true <;>
    simp [hi, hn]

/-- The ray-cast stage only adds `SCE_SNAP_TO_FACE` and (through the world
stage) `SCE_SNAP_INDIVIDUAL_NEAREST` to the log, each only when the mode is
in the used set. -/
theorem snapObjectMeshRaycastStage_log (env : MeshSnapEnv) (sc : SnapCtx)
    (m : MeshData) (used : SnapMode) (log : List SnapMode) :
    ∀ mo ∈ (snapObjectMeshRaycastStage env sc m used log).2.2,
      mo ∈ log ∨ (mo = SCE_SNAP_TO_FACE ∧ used.toFace = true) ∨
      (mo = SCE_SNAP_INDIVIDUAL_NEAREST ∧ used.individualNearest = true) := by
  intro mo hmo
  unfold snapObjectMeshRaycastStage at hmo
  by_cases hf : used.toFace = true
  · rw [if_pos hf] at hmo
    by_cases hrc : (raycastMesh env
        {sc with object_index := sc.object_index + 1} m).1 = true
    · rw [if_pos hrc] at hmo
      simp at hmo
      rcases hmo with h | h
      · exact Or.inl h
      · exact Or.inr (Or.inl ⟨h, hf⟩)
    · rw [if_neg hrc] at hmo
      rcases snapObjectMeshWorldStage_log _ _ _ _ _ mo hmo with h | h
      · simp at h
        rcases h with h | h
        · exact Or.inl h
        · exact Or.inr (Or.inl ⟨h, hf⟩)
      · exact Or.inr (Or.inr h)
  · rw [if_neg hf] at hmo
    rcases snapObjectMeshWorldStage_log _ _ _ _ _ mo hmo with h | h
    · exact Or.inl h
    · exact Or.inr (Or.inr h)

/-- C4: `mesh_snap_mode_supported` includes the face modes iff
`totpoly > 0`, the edge modes iff `totedge > 0` and the vertex mode iff
`totvert > 0`; and (for a well-formed mesh, matching runtime flags, BVH trees
existing only for present geometry, and the `BLI_assert`ed precondition that
vertex or edge snapping is requested whenever `snapMesh` is entered)
`snap_object_mesh` only attempts snap modes in the intersection of the
requested `snap_to_flag` and the supported set, and returns
`SCE_SNAP_TO_NONE` (attempting nothing) when that intersection is empty. -/
theorem snap_object_mesh_modes (env : MeshSnapEnv) (sctx : SnapCtx)
    (m : MeshData) (flags : SnapMode) (hflag : sctx.snap_to_flag = flags)
    (hassert : (flags.and (mesh_snap_mode_supported m)).hasAny
      snapEdgeVertMask = true → flags.toVertex = true ∨ flags.toEdge = true)
    (hle : env.looseEdgeTree ≠ none → m.totedge ≠ 0)
    (hlv : env.looseVertTree ≠ none → m.totvert ≠ 0)
    (hlt : env.looptriTree ≠ none → m.totpoly ≠ 0)
    (hwf1 : m.totpoly ≠ 0 → m.totedge ≠ 0)
    (hwf2 : m.totedge ≠ 0 → m.totvert ≠ 0) :
    (((mesh_snap_mode_supported m).toFace = true ↔ m.totpoly ≠ 0) ∧
     ((mesh_snap_mode_supported m).individualNearest = true ↔ m.totpoly ≠ 0) ∧
     ((mesh_snap_mode_supported m).toEdge = true ↔ m.totedge ≠ 0) ∧
     ((mesh_snap_mode_supported m).toEdgeMidpoint = true ↔ m.totedge ≠ 0) ∧
     ((mesh_snap_mode_supported m).toEdgePerpendicular = true ↔ m.totedge ≠ 0) ∧
     ((mesh_snap_mode_supported m).toVertex = true ↔ m.totvert ≠ 0)) ∧
    (∀ mo ∈ (snap_object_mesh env sctx m flags).2.2,
      mo.subsetOf (flags.and (mesh_snap_mode_supported m)) = true) ∧
    (flags.and (mesh_snap_mode_supported m) = SCE_SNAP_TO_NONE →
      (snap_object_mesh env sctx m flags).1 = SCE_SNAP_TO_NONE ∧
      (snap_object_mesh env sctx m flags).2.2 = []) := by
  refine ⟨mesh_snap_mode_supported_spec m, ?_, ?_⟩
  · intro mo hmo
    unfold snap_object_mesh at hmo
    by_cases hg : (flags.and (mesh_snap_mode_supported m)).hasAny
        snapEdgeVertMask = true
    · have hVorE := hassert hg
      rw [if_pos hg] at hmo
      by_cases hne : (snapMesh env sctx m).1 ≠ SCE_SNAP_TO_NONE
      · rw [if_pos hne] at hmo
        exact snapMesh_log_subset env sctx m flags hflag hVorE hle hlv hlt
          hwf1 hwf2 mo hmo
      · rw [if_neg hne] at hmo
        rcases snapObjectMeshRaycastStage_log _ _ _ _ _ mo hmo with
          h | ⟨rfl, hf⟩ | ⟨rfl, hi⟩
        · exact snapMesh_log_subset env sctx m flags hflag hVorE hle hlv hlt
            hwf1 hwf2 mo h
        · exact (subsetOf_face _).mpr hf
        · exact (subsetOf_individual _).mpr hi
    · rw [if_neg hg] at hmo
      rcases snapObjectMeshRaycastStage_log _ _ _ _ _ mo hmo with
        h | ⟨rfl, hf⟩ | ⟨rfl, hi⟩
      · simp at h
      · exact (subsetOf_face _).mpr hf
      · exact (subsetOf_individual _).mpr hi
  · intro hempty
    have hg : (flags.and (mesh_snap_mode_supported m)).hasAny
        snapEdgeVertMask = false := by
      rw [hempty]
      rfl
    have hface : (flags.and (mesh_snap_mode_supported m)).toFace = false := by
      rw [hempty]
      rfl
    have hind : (flags.and (mesh_snap_mode_supported m)).individualNearest
        = false := by
      rw [hempty]
      rfl
    constructor <;>
      simp [snap_object_mesh, hg, snapObjectMeshRaycastStage, hface,
        snapObjectMeshWorldStage, hind]

/-- Witness for C4 on the two-vertex one-edge fixture with vertex and edge
snapping requested. -/
theorem snap_object_mesh_modes_witness :
    (sctxW4.snap_to_flag = ({toVertex := true, toEdge := true} : SnapMode) ∧
     mW4.totedge ≠ 0 ∧ mW4.totvert ≠ 0 ∧ mW4.totpoly = 0 ∧
     envW4.looptriTree = none) ∧
    ((((mesh_snap_mode_supported mW4).toFace = true ↔ mW4.totpoly ≠ 0) ∧
     ((mesh_snap_mode_supported mW4).individualNearest = true ↔ mW4.totpoly ≠ 0) ∧
     ((mesh_snap_mode_supported mW4).toEdge = true ↔ mW4.totedge ≠ 0) ∧
     ((mesh_snap_mode_supported mW4).toEdgeMidpoint = true ↔ mW4.totedge ≠ 0) ∧
     ((mesh_snap_mode_supported mW4).toEdgePerpendicular = true ↔ mW4.totedge ≠ 0) ∧
     ((mesh_snap_mode_supported mW4).toVertex = true ↔ mW4.totvert ≠ 0)) ∧
    (∀ mo ∈ (snap_object_mesh envW4 sctxW4 mW4
        {toVertex := true, toEdge := true}).2.2,
      mo.subsetOf (SnapMode.and {toVertex := true, toEdge := true}
        (mesh_snap_mode_supported mW4)) = true) ∧
    (SnapMode.and {toVertex := true, toEdge := true}
        (mesh_snap_mode_supported mW4) = SCE_SNAP_TO_NONE →
      (snap_object_mesh envW4 sctxW4 mW4
        {toVertex := true, toEdge := true}).1 = SCE_SNAP_TO_NONE ∧
      (snap_object_mesh envW4 sctxW4 mW4
        {toVertex := true, toEdge := true}).2.2 = [])) :=
  ⟨⟨rfl, by decide, by decide, rfl, rfl⟩,
   snap_object_mesh_modes envW4 sctxW4 mW4 {toVertex := true, toEdge := true}
     rfl (fun _ => Or.inl rfl) (fun _ => by decide) (fun _ => by decide)
     (fun h => absurd rfl h) (fun h => absurd rfl h) (fun _ => by decide)⟩

/-- C9, evaluated at the failing input: the triangle
`(0,0,0), (1,0,0), (0,1,0)` is back-facing for the ray direction `(0,0,1)`
(its `cross_tri_v3` normal is `(0,0,1)`, along the ray), so the culling test
fails for it and the ray-cast callback of the same file refuses the hit; yet
with `use_backface_culling` enabled, `cb_snap_tri_verts` and
`cb_snap_tri_edges` do test its candidates and record a snap result from it,
while the front-facing mirror triangle (reversed winding) is skipped
entirely.  The projected-snap callbacks return early exactly when the test
passes, i.e. they cull front-facing, not back-facing, triangles. -/
theorem backface_culling_polarity_bug :
    triBackfacing ⟨0, 0, 1⟩ ⟨0, 0, 0⟩ ⟨1, 0, 0⟩ ⟨0, 1, 0⟩ = true ∧
    raycast_tri_backface_culling_test ⟨0, 0, 1⟩ ⟨0, 0, 0⟩ ⟨1, 0, 0⟩ ⟨0, 1, 0⟩
      = false ∧
    mesh_looptri_raycast_backface_culling_cb envC9 mC9 0 rayC9 hitC9 = hitC9 ∧
    (cb_snap_tri_verts envC9 mC9 true 0 (initSnapState 2)).nearest.index = 2 ∧
    (cb_snap_tri_edges envC9 mC9 true 0 (initSnapState 2)).nearest.index ≠ -1 ∧
    cb_snap_tri_verts envC9 mC9f true 0 (initSnapState 2) = initSnapState 2 ∧
    (cb_snap_tri_verts envC9 mC9f false 0 (initSnapState 2)).nearest.index = 1 := by
  refine ⟨?_, ?_, ?_, ?_, ?_, ?_, ?_⟩ <;>
    simp [triBackfacing, raycast_tri_backface_culling_test, cross_tri_v3,
      Vec3.sub, Vec3.cross, Vec3.dot, mesh_looptri_raycast_backface_culling_cb,
      envC9, mC9, mC9f, rayC9, hitC9, get_tri_verts_index, get_vert_co,
      get_tri_edges_index, get_edge_verts_index, triSideEdge, ELEM,
      cb_snap_tri_verts, cb_snap_tri_edges, cbTriEdgeStep, cb_snap_vert,
      cb_snap_edge, snapTest, initSnapState, MLoopTri.tri] <;> norm_num

/-- For an edge with two distinct vertices, the `ELEM` membership test of
`get_tri_edges_index` is exactly the test that the edge's vertices are the
side's vertex pair, in one of the two orders. -/
theorem elem_pair_iff (e1 e2 a b : Nat) (hnd : e1 ≠ e2) :
    (ELEM e1 a b && ELEM e2 a b) = true ↔
      ((e1 = a ∧ e2 = b) ∨ (e1 = b ∧ e2 = a)) := by
  simp only [ELEM, Bool.and_eq_true, Bool.or_eq_true, beq_iff_eq]
  omega

/-- One side of `get_tri_edges_index`, for a non-degenerate candidate edge:
the side result is not `-1` iff the edge's vertices are exactly the side's
corner vertex pair, and then it is the candidate edge's index. -/
theorem triSideEdge_spec (m : MeshData) (lt : MLoopTri) (j jn : Nat)
    (hnd : (m.edges.getD (m.corner_edges.getD (lt.tri j) 0) (0, 0)).1 ≠
           (m.edges.getD (m.corner_edges.getD (lt.tri j) 0) (0, 0)).2) :
    (triSideEdge m lt j jn ≠ -1 ↔
      (((m.edges.getD (m.corner_edges.getD (lt.tri j) 0) (0, 0)).1 =
          m.corner_verts.getD (lt.tri j) 0 ∧
        (m.edges.getD (m.corner_edges.getD (lt.tri j) 0) (0, 0)).2 =
          m.corner_verts.getD (lt.tri jn) 0) ∨
       ((m.edges.getD (m.corner_edges.getD (lt.tri j) 0) (0, 0)).1 =
          m.corner_verts.getD (lt.tri jn) 0 ∧
        (m.edges.getD (m.corner_edges.getD (lt.tri j) 0) (0, 0)).2 =
          m.corner_verts.getD (lt.tri j) 0))) ∧
    (triSideEdge m lt j jn ≠ -1 →
      triSideEdge m lt j jn = Int.ofNat (m.corner_edges.getD (lt.tri j) 0)) := by
  have hpair := elem_pair_iff
    (m.edges.getD (m.corner_edges.getD (lt.tri j) 0) (0, 0)).1
    (m.edges.getD (m.corner_edges.getD (lt.tri j) 0) (0, 0)).2
    (m.corner_verts.getD (lt.tri j) 0) (m.corner_verts.getD (lt.tri jn) 0) hnd
  simp only [triSideEdge]
  by_cases hc : (ELEM (m.edges.getD (m.corner_edges.getD (lt.tri j) 0) (0, 0)).1
      (m.corner_verts.getD (lt.tri j) 0) (m.corner_verts.getD (lt.tri jn) 0) &&
    ELEM (m.edges.getD (m.corner_edges.getD (lt.tri j) 0) (0, 0)).2
      (m.corner_verts.getD (lt.tri j) 0)
      (m.corner_verts.getD (lt.tri jn) 0)) = true
  · rw [if_pos hc]
    exact ⟨⟨fun _ => hpair.mp hc, fun _ => intOfNat_ne_negOne _⟩, fun _ => rfl⟩
  · rw [if_neg hc]
    exact ⟨⟨fun hne => absurd rfl hne, fun hp => absurd (hpair.mpr hp) hc⟩,
      fun hne => absurd rfl hne⟩

/-- `cb_snap_edge` always logs exactly its index argument. -/
theorem cb_snap_edge_calls (env : MeshSnapEnv) (m : MeshData) (i : Int)
    (s : SnapState) : (cb_snap_edge env m i s).edgeCalls = i :: s.edgeCalls := by
  simp only [cb_snap_edge, snapTest]
  split
  · split <;> rfl
  · rfl

/-- One edge step of `cb_snap_tri_edges` only ever calls `cb_snap_edge` for
an index different from `-1`. -/
theorem cbTriEdgeStep_calls (env : MeshSnapEnv) (m : MeshData) (e : Int)
    (s : SnapState) :
    ∀ x ∈ (cbTriEdgeStep env m e s).edgeCalls, x ∈ s.edgeCalls ∨ x ≠ -1 := by
  intro x hx
  unfold cbTriEdgeStep at hx
  by_cases he : e ≠ -1
  · rw [if_pos he] at hx
    by_cases hei : e = s.nearest.index
    · rw [if_pos hei] at hx
      exact Or.inl hx
    · rw [if_neg hei] at hx
      rw [cb_snap_edge_calls] at hx
      rcases List.mem_cons.mp hx with rfl | hx
      · exact Or.inr he
      · exact Or.inl hx
  · rw [if_neg he] at hx
    exact Or.inl hx

/-- Every index `cb_snap_tri_edges` passes to `cb_snap_edge` is
different from `-1`. -/
theorem cb_snap_tri_edges_calls (env : MeshSnapEnv) (m : MeshData) (bfc : Bool)
    (index : Nat) (s : SnapState) :
    ∀ x ∈ (cb_snap_tri_edges env m bfc index s).edgeCalls,
      x ∈ s.edgeCalls ∨ x ≠ -1 := by
  intro x hx
  unfold cb_snap_tri_edges at hx
  split at hx
  · exact Or.inl hx
  · rcases cbTriEdgeStep_calls _ _ _ _ x hx with h | h
    · rcases cbTriEdgeStep_calls _ _ _ _ x h with h2 | h2
      · rcases cbTriEdgeStep_calls _ _ _ _ x h2 with h3 | h3
        · exact Or.inl h3
        · exact Or.inr h3
      · exact Or.inr h2
    · exact Or.inr h

/-- C10 counterexample: on the mesh `mC10`, whose corner edge for the
triangle side joining corner vertices `0` and `1` is the degenerate mesh
edge `(1, 1)`, `get_tri_edges_index` returns that edge's index (`0`), not
`-1`, although the edge's two vertices are not exactly the side's vertex
pair — the `ELEM` tests only check membership, not exact pairing, so the
claim as stated fails on degenerate edges. -/
theorem get_tri_edges_index_degenerate_cex :
    (get_tri_edges_index mC10 0).1 ≠ -1 ∧
    (get_tri_edges_index mC10 0).1 = Int.ofNat (mC10.corner_edges.getD 0 0) ∧
    ¬(((mC10.edges.getD (mC10.corner_edges.getD 0 0) (0, 0)).1 =
          mC10.corner_verts.getD 0 0 ∧
       (mC10.edges.getD (mC10.corner_edges.getD 0 0) (0, 0)).2 =
          mC10.corner_verts.getD 1 0) ∨
      ((mC10.edges.getD (mC10.corner_edges.getD 0 0) (0, 0)).1 =
          mC10.corner_verts.getD 1 0 ∧
       (mC10.edges.getD (mC10.corner_edges.getD 0 0) (0, 0)).2 =
          mC10.corner_verts.getD 0 0)) := by
  refine ⟨?_, ?_, ?_⟩ <;> decide

/-- C10 (amended): for every looptri side whose candidate corner edge is
non-degenerate (two distinct vertices), `get_tri_edges_index` reports an
edge index other than `-1` iff that mesh edge's vertices are exactly the
side's corner vertex pair (in either order), and then the reported index is
that mesh edge's index; the result triple consists of the three side
results; and `cb_snap_tri_edges` never invokes `cb_snap_edge` for an index
of `-1`. -/
theorem get_tri_edges_index_real_edges (m : MeshData) (index : Nat)
    (env : MeshSnapEnv) (bfc : Bool) (s : SnapState) :
    (∀ j jn : Nat,
      (m.edges.getD (m.corner_edges.getD
          ((m.looptris.getD index default).tri j) 0) (0, 0)).1 ≠
      (m.edges.getD (m.corner_edges.getD
          ((m.looptris.getD index default).tri j) 0) (0, 0)).2 →
      (triSideEdge m (m.looptris.getD index default) j jn ≠ -1 ↔
        (((m.edges.getD (m.corner_edges.getD
              ((m.looptris.getD index default).tri j) 0) (0, 0)).1 =
            m.corner_verts.getD ((m.looptris.getD index default).tri j) 0 ∧
          (m.edges.getD (m.corner_edges.getD
              ((m.looptris.getD index default).tri j) 0) (0, 0)).2 =
            m.corner_verts.getD ((m.looptris.getD index default).tri jn) 0) ∨
         ((m.edges.getD (m.corner_edges.getD
              ((m.looptris.getD index default).tri j) 0) (0, 0)).1 =
            m.corner_verts.getD ((m.looptris.getD index default).tri jn) 0 ∧
          (m.edges.getD (m.corner_edges.getD
              ((m.looptris.getD index default).tri j) 0) (0, 0)).2 =
            m.corner_verts.getD ((m.looptris.getD index default).tri j) 0))) ∧
      (triSideEdge m (m.looptris.getD index default) j jn ≠ -1 →
        triSideEdge m (m.looptris.getD index default) j jn =
          Int.ofNat (m.corner_edges.getD
            ((m.looptris.getD index default).tri j) 0))) ∧
    get_tri_edges_index m index =
      (triSideEdge m (m.looptris.getD index default) 0 1,
       triSideEdge m (m.looptris.getD index default) 1 2,
       triSideEdge m (m.looptris.getD index default) 2 0) ∧
    (∀ x ∈ (cb_snap_tri_edges env m bfc index s).edgeCalls,
      x ∈ s.edgeCalls ∨ x ≠ -1) := by
  exact ⟨fun j jn hnd => triSideEdge_spec m (m.looptris.getD index default) j jn hnd,
    rfl, cb_snap_tri_edges_calls env m bfc index s⟩

/-- Witness for C10 (amended) on the well-formed one-triangle fixture: the
side from corner 0 to corner 1 is the real edge `(0, 1)` and is reported;
the other two sides are `-1`. -/
theorem get_tri_edges_index_real_edges_witness :
    ((mC10w.edges.getD (mC10w.corner_edges.getD 0 0) (0, 0)).1 ≠
      (mC10w.edges.getD (mC10w.corner_edges.getD 0 0) (0, 0)).2) ∧
    get_tri_edges_index mC10w 0 = (0, -1, -1) ∧
    (triSideEdge mC10w (mC10w.looptris.getD 0 default) 0 1 ≠ -1 ↔
      (((mC10w.edges.getD (mC10w.corner_edges.getD
            ((mC10w.looptris.getD 0 default).tri 0) 0) (0, 0)).1 =
          mC10w.corner_verts.getD ((mC10w.looptris.getD 0 default).tri 0) 0 ∧
        (mC10w.edges.getD (mC10w.corner_edges.getD
            ((mC10w.looptris.getD 0 default).tri 0) 0) (0, 0)).2 =
          mC10w.corner_verts.getD ((mC10w.looptris.getD 0 default).tri 1) 0) ∨
       ((mC10w.edges.getD (mC10w.corner_edges.getD
            ((mC10w.looptris.getD 0 default).tri 0) 0) (0, 0)).1 =
          mC10w.corner_verts.getD ((mC10w.looptris.getD 0 default).tri 1) 0 ∧
        (mC10w.edges.getD (mC10w.corner_edges.getD
            ((mC10w.looptris.getD 0 default).tri 0) 0) (0, 0)).2 =
          mC10w.corner_verts.getD ((mC10w.looptris.getD 0 default).tri 0) 0))) :=
  ⟨by decide, by decide,
   ((get_tri_edges_index_real_edges mC10w 0 {} false
      (initSnapState 0)).1 0 1 (by decide)).1⟩
